import Mathlib

/-!
Verification development for the configuration validation and resolution
engine of the pipecat-cli repository
(src/pipecat_cli/config_validator.py).

The validator is embedded shallowly: the Python keyword arguments of
validate_and_build_config become the fields of RawInput, Python Optional
strings become Option String, Python truthiness is made explicit
(tS / tL), and the error-accumulation is a pure computation producing the
ordered list of violation messages.  Raising ConfigValidationError is
modelled as Except.error carrying that list; success is Except.ok carrying
the resolved ProjectConfig record.

The ServiceRegistry catalog and the ProjectConfig record live outside the
validator module in the repository; they are modelled from the spec where
noted (their doc comments start with: Modelled from the spec).
-/

/-- One registry entry: only the value identifier is load-bearing
(config_validator.py reads svc.value and nothing else). -/
structure ServiceDefinition where
  value : String
deriving Repr, DecidableEq

namespace ServiceRegistry

/-- Modelled from the spec: the web-transport (WebRTC) category of the
Service Registry, which is not part of the validator source.  The concrete
identifiers are the ones exercised by the repository tests
(daily, smallwebrtc). -/
def WEBRTC_TRANSPORTS : List ServiceDefinition :=
  [⟨"daily"⟩, ⟨"smallwebrtc"⟩]

/-- Modelled from the spec: the telephony-transport category.  Besides the
plain carrier identifiers used by the tests (twilio, telnyx) it contains the
mode-qualified dial identifiers: spec section 4.1 says the catalog is the
universe of literal transport tokens accepted by the validator before the
two generic names are added, the validator source comments that it
additionally accepts the generic names, and the dial-mode-without-transport
check scans input tokens by base-name prefix precisely so that a saved
configuration carrying an already-resolved identifier revalidates. -/
def TELEPHONY_TRANSPORTS : List ServiceDefinition :=
  [⟨"twilio"⟩, ⟨"telnyx"⟩,
   ⟨"daily_pstn_dialin"⟩, ⟨"daily_pstn_dialout"⟩,
   ⟨"twilio_daily_sip_dialin"⟩, ⟨"twilio_daily_sip_dialout"⟩]

/-- Modelled from the spec: speech-to-text catalog (identifiers from the
repository tests). -/
def STT_SERVICES : List ServiceDefinition :=
  [⟨"deepgram_stt"⟩]

/-- Modelled from the spec: language-model catalog. -/
def LLM_SERVICES : List ServiceDefinition :=
  [⟨"openai_llm"⟩, ⟨"anthropic_llm"⟩]

/-- Modelled from the spec: text-to-speech catalog. -/
def TTS_SERVICES : List ServiceDefinition :=
  [⟨"cartesia_tts"⟩, ⟨"elevenlabs_tts"⟩]

/-- Modelled from the spec: realtime-voice catalog. -/
def REALTIME_SERVICES : List ServiceDefinition :=
  [⟨"openai_realtime"⟩]

/-- Modelled from the spec: video-avatar catalog. -/
def VIDEO_SERVICES : List ServiceDefinition :=
  [⟨"tavus_video"⟩]

end ServiceRegistry

/-- Mirrors _get_valid_values: extract the value strings of a category. -/
def _get_valid_values (service_list : List ServiceDefinition) : List String :=
  service_list.map (fun svc => svc.value)

/-- The combined transport catalog, mirroring
all_transports = WEBRTC_TRANSPORTS + TELEPHONY_TRANSPORTS and
valid_transport_values = _get_valid_values(all_transports). -/
def valid_transport_values : List String :=
  _get_valid_values (ServiceRegistry.WEBRTC_TRANSPORTS ++ ServiceRegistry.TELEPHONY_TRANSPORTS)

/-- webrtc_values of the source. -/
def webrtc_values : List String :=
  _get_valid_values ServiceRegistry.WEBRTC_TRANSPORTS

/-- telephony_values of the source. -/
def telephony_values : List String :=
  _get_valid_values ServiceRegistry.TELEPHONY_TRANSPORTS

/-- The untrusted input bag: exactly the keyword parameters of
validate_and_build_config with their source defaults.  Optional strings and
the optional string list keep their Python looseness (absent = none, and a
present empty string is distinct from absent, as in Python). -/
structure RawInput where
  name : Option String := none
  bot_type : Option String := none
  transport : Option (List String) := none
  mode : Option String := none
  stt : Option String := none
  llm : Option String := none
  tts : Option String := none
  realtime : Option String := none
  video : Option String := none
  client_framework : Option String := none
  client_server : Option String := none
  daily_pstn_mode : Option String := none
  twilio_daily_sip_mode : Option String := none
  recording : Bool := false
  transcription : Bool := false
  video_input : Bool := false
  video_output : Bool := false
  deploy_to_cloud : Bool := true
  enable_krisp : Bool := false
  observability : Bool := false
deriving Repr, DecidableEq

/-- Modelled from the spec: the resolved configuration record (section 3 of
the spec; the record itself is declared in pipecat_cli/prompts/questions.py,
outside the validator source).  Its fields are exactly the ones the
validator constructs and config_to_json serializes.  Note that the validator
source never determines a smart_turn value (it has no smart_turn parameter
and passes none to the record), so no smart_turn field is representable
here; see the development notes on the end-to-end scenario theorem. -/
structure ProjectConfig where
  project_name : Option String
  bot_type : Option String
  transports : List String
  mode : Option String
  stt_service : Option String
  llm_service : Option String
  tts_service : Option String
  realtime_service : Option String
  video_service : Option String
  generate_client : Bool
  client_framework : Option String
  client_server : Option String
  daily_pstn_mode : Option String
  twilio_daily_sip_mode : Option String
  video_input : Bool
  video_output : Bool
  recording : Bool
  transcription : Bool
  deploy_to_cloud : Bool
  enable_krisp : Bool
  enable_observability : Bool
deriving Repr, DecidableEq

/-- Python truthiness of an optional string: None and the empty string are
falsy. -/
def tS : Option String → Bool
  | none => false
  | some s => !(s == "")

/-- Python truthiness of an optional list: None and the empty list are
falsy. -/
def tL : Option (List String) → Bool
  | none => false
  | some l => !(l.isEmpty)

/-- Kernel-computable counterpart of the Python str.replace("-", "") used on
the dial-mode values: deleting every hyphen. -/
def stripDashes (s : String) : String :=
  ⟨s.data.filter (fun c => !(c == '-'))⟩

/-- Kernel-computable counterpart of Python str.startswith. -/
def charsStart : List Char → List Char → Bool
  | [], _ => true
  | _ :: _, [] => false
  | p :: ps, c :: cs => p == c && charsStart ps cs

/-- t.startswith(pre) of the source. -/
def pyStarts (t pre : String) : Bool :=
  charsStart pre.data t.data

/-- Insertion of a string into a sorted list (for the deterministic sorted
valid-transport listing of the unknown-transport message). -/
def insertSorted (x : String) : List String → List String
  | [] => [x]
  | y :: ys => if x < y then x :: y :: ys else y :: insertSorted x ys

/-- Deterministic sort mirroring Python sorted(...) on the deduplicated
token set. -/
def sortStrings : List String → List String
  | [] => []
  | x :: xs => insertSorted x (sortStrings xs)

/-- Python sorted(set(valid_transport_values) | generic_transport_names):
deduplicate, then sort. -/
def all_valid_sorted : List String :=
  sortStrings ((valid_transport_values ++ ["daily_pstn", "twilio_daily_sip"]).eraseDups)

-- Message strings of the validator, in source wording (\x27 is the ASCII
-- apostrophe).

/-- Message: missing name. -/
def msgNameRequired : String := "--name is required"

/-- Message: missing bot type. -/
def msgBotTypeRequired : String := "--bot-type is required (web or telephony)"

/-- Message: invalid bot type. -/
def msgBotTypeInvalid (b : String) : String :=
  "--bot-type must be \x27web\x27 or \x27telephony\x27, got \x27" ++ b ++ "\x27"

/-- Message: missing transport. -/
def msgTransportRequired : String := "At least one --transport is required"

/-- Message: missing mode. -/
def msgModeRequired : String := "--mode is required (cascade or realtime)"

/-- Message: invalid mode. -/
def msgModeInvalid (m : String) : String :=
  "--mode must be \x27cascade\x27 or \x27realtime\x27, got \x27" ++ m ++ "\x27"

/-- Message: daily_pstn without a dial mode. -/
def msgDailyPstnModeRequired : String :=
  "--daily-pstn-mode is required when transport is \x27daily_pstn\x27 (dial-in or dial-out)"

/-- Message: invalid daily_pstn dial mode. -/
def msgDailyPstnModeInvalid (m : String) : String :=
  "--daily-pstn-mode must be \x27dial-in\x27 or \x27dial-out\x27, got \x27" ++ m ++ "\x27"

/-- Message: twilio_daily_sip without a dial mode. -/
def msgTwilioSipModeRequired : String :=
  "--twilio-daily-sip-mode is required when transport is \x27twilio_daily_sip\x27 (dial-in or dial-out)"

/-- Message: invalid twilio_daily_sip dial mode. -/
def msgTwilioSipModeInvalid (m : String) : String :=
  "--twilio-daily-sip-mode must be \x27dial-in\x27 or \x27dial-out\x27, got \x27" ++ m ++ "\x27"

/-- Message: unknown transport token. -/
def msgUnknownTransport (t : String) : String :=
  "Unknown transport \x27" ++ t ++ "\x27. Valid transports: " ++ String.intercalate ", " all_valid_sorted

/-- Message: telephony transport on a web bot. -/
def msgTelephonyTransportOnWeb (t : String) : String :=
  "Transport \x27" ++ t ++ "\x27 is a telephony transport but bot-type is \x27web\x27"

/-- Message: missing stt in cascade mode. -/
def msgSttRequired : String := "--stt is required for cascade mode"

/-- Message: unknown stt service. -/
def msgUnknownStt (s : String) : String :=
  "Unknown STT service \x27" ++ s ++ "\x27. Valid: " ++
    String.intercalate ", " (_get_valid_values ServiceRegistry.STT_SERVICES)

/-- Message: missing llm in cascade mode. -/
def msgLlmRequired : String := "--llm is required for cascade mode"

/-- Message: unknown llm service. -/
def msgUnknownLlm (s : String) : String :=
  "Unknown LLM service \x27" ++ s ++ "\x27. Valid: " ++
    String.intercalate ", " (_get_valid_values ServiceRegistry.LLM_SERVICES)

/-- Message: missing tts in cascade mode. -/
def msgTtsRequired : String := "--tts is required for cascade mode"

/-- Message: unknown tts service. -/
def msgUnknownTts (s : String) : String :=
  "Unknown TTS service \x27" ++ s ++ "\x27. Valid: " ++
    String.intercalate ", " (_get_valid_values ServiceRegistry.TTS_SERVICES)

/-- Message: realtime flag given in cascade mode. -/
def msgRealtimeInCascade : String := "--realtime should not be specified in cascade mode"

/-- Message: missing realtime service in realtime mode. -/
def msgRealtimeRequired : String := "--realtime is required for realtime mode"

/-- Message: unknown realtime service. -/
def msgUnknownRealtime (s : String) : String :=
  "Unknown realtime service \x27" ++ s ++ "\x27. Valid: " ++
    String.intercalate ", " (_get_valid_values ServiceRegistry.REALTIME_SERVICES)

/-- Message: stt flag given in realtime mode. -/
def msgSttInRealtime : String := "--stt should not be specified in realtime mode"

/-- Message: llm flag given in realtime mode. -/
def msgLlmInRealtime : String := "--llm should not be specified in realtime mode"

/-- Message: tts flag given in realtime mode. -/
def msgTtsInRealtime : String := "--tts should not be specified in realtime mode"

/-- Message: unknown video service. -/
def msgUnknownVideo (s : String) : String :=
  "Unknown video service \x27" ++ s ++ "\x27. Valid: " ++
    String.intercalate ", " (_get_valid_values ServiceRegistry.VIDEO_SERVICES)

/-- Message: video service on a telephony bot. -/
def msgVideoOnlyWeb : String := "Video services are only available for web bots"

/-- Message: invalid client framework. -/
def msgClientFrameworkInvalid (cf : String) : String :=
  "--client-framework must be \x27react\x27, \x27vanilla\x27, or \x27none\x27, got \x27" ++ cf ++ "\x27"

/-- Message: client framework on a telephony bot. -/
def msgClientFrameworkOnlyWeb : String := "--client-framework is only available for web bots"

/-- Message: invalid client server. -/
def msgClientServerInvalid (cs : String) : String :=
  "--client-server must be \x27vite\x27 or \x27nextjs\x27, got \x27" ++ cs ++ "\x27"

/-- Message: client server without a framework. -/
def msgClientServerNeedsFramework : String := "--client-server requires --client-framework"

/-- Message: video input on a telephony bot. -/
def msgVideoInputOnlyWeb : String := "--video-input is only available for web bots"

/-- Message: video output on a telephony bot. -/
def msgVideoOutputOnlyWeb : String := "--video-output is only available for web bots"

/-- Message: krisp without cloud deployment. -/
def msgKrispNeedsCloud : String := "--enable-krisp requires --deploy-to-cloud"

/-- Message: daily_pstn dial mode without a matching transport. -/
def msgDailyPstnModeNoTransport : String :=
  "--daily-pstn-mode specified but no \x27daily_pstn\x27 transport"

/-- Message: twilio_daily_sip dial mode without a matching transport. -/
def msgTwilioSipModeNoTransport : String :=
  "--twilio-daily-sip-mode specified but no \x27twilio_daily_sip\x27 transport"

-- The validator, block by block.  Each block mirrors one commented section
-- of validate_and_build_config; a violated rule instance contributes
-- exactly one message to its block, and the blocks are concatenated in
-- source order.

/-- Required-field rule for name (source: if not name). -/
def nameErrors (i : RawInput) : List String :=
  if tS i.name then [] else [msgNameRequired]

/-- Required/enumeration rule for bot_type (absence and
presence-but-invalid give distinct messages). -/
def botTypeErrors (i : RawInput) : List String :=
  match i.bot_type with
  | none => [msgBotTypeRequired]
  | some b =>
    if b == "" then [msgBotTypeRequired]
    else if b != "web" && b != "telephony" then [msgBotTypeInvalid b]
    else []

/-- Required rule for the transport list (source: if not transport). -/
def transportPresenceErrors (i : RawInput) : List String :=
  if tL i.transport then [] else [msgTransportRequired]

/-- Required/enumeration rule for mode. -/
def modeEnumErrors (i : RawInput) : List String :=
  match i.mode with
  | none => [msgModeRequired]
  | some m =>
    if m == "" then [msgModeRequired]
    else if m != "cascade" && m != "realtime" then [msgModeInvalid m]
    else []

/-- Per-token transport resolution (the body of the source loop over the
input transport list).  Each token independently yields either exactly one
error message or exactly one resolved identifier. -/
def resolveToken (i : RawInput) (t : String) : Except String String :=
  if t == "daily_pstn" then
    match i.daily_pstn_mode with
    | none => .error msgDailyPstnModeRequired
    | some m =>
      if m == "" then .error msgDailyPstnModeRequired
      else if m != "dial-in" && m != "dial-out" then .error (msgDailyPstnModeInvalid m)
      else .ok ("daily_pstn_" ++ stripDashes m)
  else if t == "twilio_daily_sip" then
    match i.twilio_daily_sip_mode with
    | none => .error msgTwilioSipModeRequired
    | some m =>
      if m == "" then .error msgTwilioSipModeRequired
      else if m != "dial-in" && m != "dial-out" then .error (msgTwilioSipModeInvalid m)
      else .ok ("twilio_daily_sip_" ++ stripDashes m)
  else if valid_transport_values.contains t then .ok t
  else .error (msgUnknownTransport t)

/-- The error half of a token resolution. -/
def errSide : Except String String → Option String
  | .error e => some e
  | .ok _ => none

/-- The resolved half of a token resolution. -/
def okSide : Except String String → Option String
  | .error _ => none
  | .ok r => some r

/-- The single pass of the source loop, accumulating the error messages and
the resolved transports together, in order. -/
def transportFold (i : RawInput) (ts : List String) : List String × List String :=
  ts.foldl
    (fun acc t =>
      match resolveToken i t with
      | .error e => (acc.1 ++ [e], acc.2)
      | .ok r => (acc.1, acc.2 ++ [r]))
    ([], [])

/-- The transport error messages of the loop, one per failing token, in
input order. -/
def transportErrors (i : RawInput) : List String :=
  (i.transport.getD []).filterMap (fun t => errSide (resolveToken i t))

/-- resolved_transports of the source: the resolved identifiers, one per
successful token, in input order. -/
def resolvedTransports (i : RawInput) : List String :=
  (i.transport.getD []).filterMap (fun t => okSide (resolveToken i t))

/-- The message of the transport/bot-type cross-check for one resolved
transport, if violated.  The source explicitly allows the converse
combination (webrtc transport on a telephony bot) with a pass branch. -/
def crossCheckMsg (i : RawInput) (t : String) : Option String :=
  if i.bot_type == some "web" && telephony_values.contains t then
    some (msgTelephonyTransportOnWeb t)
  else none

/-- Transport/bot-type cross-check block (source: if bot_type and
resolved_transports: loop). -/
def crossTransportErrors (i : RawInput) : List String :=
  if tS i.bot_type && !(resolvedTransports i).isEmpty then
    (resolvedTransports i).filterMap (crossCheckMsg i)
  else []

/-- Required/catalog check shared by the per-mode service rules: absence
and presence-but-unknown give distinct messages. -/
def serviceCheck (o : Option String) (values : List String)
    (reqMsg : String) (unkMsg : String → String) : List String :=
  match o with
  | none => [reqMsg]
  | some s =>
    if s == "" then [reqMsg]
    else if !(values.contains s) then [unkMsg s]
    else []

/-- Mode-specific service rules (cascade requires and checks stt/llm/tts
and rejects realtime; realtime requires and checks realtime and rejects
stt/llm/tts). -/
def modeServiceErrors (i : RawInput) : List String :=
  if i.mode == some "cascade" then
    serviceCheck i.stt (_get_valid_values ServiceRegistry.STT_SERVICES) msgSttRequired msgUnknownStt
      ++ serviceCheck i.llm (_get_valid_values ServiceRegistry.LLM_SERVICES) msgLlmRequired msgUnknownLlm
      ++ serviceCheck i.tts (_get_valid_values ServiceRegistry.TTS_SERVICES) msgTtsRequired msgUnknownTts
      ++ (if tS i.realtime then [msgRealtimeInCascade] else [])
  else if i.mode == some "realtime" then
    serviceCheck i.realtime (_get_valid_values ServiceRegistry.REALTIME_SERVICES)
        msgRealtimeRequired msgUnknownRealtime
      ++ (if tS i.stt then [msgSttInRealtime] else [])
      ++ (if tS i.llm then [msgLlmInRealtime] else [])
      ++ (if tS i.tts then [msgTtsInRealtime] else [])
  else []

/-- Video service rules: catalog membership and the web-only restriction
are independent checks and can both fire. -/
def videoErrors (i : RawInput) : List String :=
  if tS i.video then
    (match i.video with
     | some v => if !((_get_valid_values ServiceRegistry.VIDEO_SERVICES).contains v) then [msgUnknownVideo v] else []
     | none => [])
    ++ (if i.bot_type == some "telephony" then [msgVideoOnlyWeb] else [])
  else []

/-- Client selection rules (source lines 202 to 227): the error half. -/
def clientErrors (i : RawInput) : List String :=
  (if tS i.client_framework then
    (match i.client_framework with
     | some cf =>
       (if cf != "react" && cf != "vanilla" && cf != "none" then [msgClientFrameworkInvalid cf] else [])
       ++ (if i.bot_type == some "telephony" then [msgClientFrameworkOnlyWeb] else [])
       ++ (if cf == "react" then
             match i.client_server with
             | some cs => if cs != "" && cs != "vite" && cs != "nextjs" then [msgClientServerInvalid cs] else []
             | none => []
           else [])
     | none => [])
   else [])
  ++ (if tS i.client_server && !(tS i.client_framework) then [msgClientServerNeedsFramework] else [])

/-- Client selection rules: the resolution half (generate_client,
resolved_client_framework, resolved_client_server).  The framework none is
normalized to absent; vanilla forces the vite server; every other case
keeps the raw values. -/
def clientResolve (i : RawInput) : Bool × Option String × Option String :=
  if tS i.client_framework then
    match i.client_framework with
    | some cf =>
      if cf == "react" then (true, some cf, i.client_server)
      else if cf == "vanilla" then (true, some cf, some "vite")
      else if cf == "none" then (false, none, i.client_server)
      else (false, i.client_framework, i.client_server)
    | none => (false, i.client_framework, i.client_server)
  else (false, i.client_framework, i.client_server)

/-- Cross-field feature rules. -/
def crossFieldErrors (i : RawInput) : List String :=
  (if i.video_input && i.bot_type == some "telephony" then [msgVideoInputOnlyWeb] else [])
  ++ (if i.video_output && i.bot_type == some "telephony" then [msgVideoOutputOnlyWeb] else [])
  ++ (if i.enable_krisp && !i.deploy_to_cloud then [msgKrispNeedsCloud] else [])

/-- Dial-mode-without-matching-transport rule for daily_pstn.  The source
scans the input transport list: the literal generic token, or any input
token having the base name as a prefix, suppresses the message; the whole
check is skipped when the transport list is absent or empty. -/
def dailyDialErrors (i : RawInput) : List String :=
  match i.transport with
  | none => []
  | some ts =>
    if tS i.daily_pstn_mode && !ts.isEmpty && !(ts.contains "daily_pstn") then
      if !(ts.any (fun t => pyStarts t "daily_pstn")) then [msgDailyPstnModeNoTransport] else []
    else []

/-- Dial-mode-without-matching-transport rule for twilio_daily_sip, scanned
the same way. -/
def twilioDialErrors (i : RawInput) : List String :=
  match i.transport with
  | none => []
  | some ts =>
    if tS i.twilio_daily_sip_mode && !ts.isEmpty && !(ts.contains "twilio_daily_sip") then
      if !(ts.any (fun t => pyStarts t "twilio_daily_sip")) then [msgTwilioSipModeNoTransport] else []
    else []

/-- Both dial-mode-without-matching-transport rules, in source order. -/
def dialModeErrors (i : RawInput) : List String :=
  dailyDialErrors i ++ twilioDialErrors i

/-- The complete ordered violation list: the blocks concatenated in source
order. -/
def errorsAll (i : RawInput) : List String :=
  nameErrors i ++ botTypeErrors i ++ transportPresenceErrors i ++ modeEnumErrors i
    ++ transportErrors i ++ crossTransportErrors i ++ modeServiceErrors i
    ++ videoErrors i ++ clientErrors i ++ crossFieldErrors i ++ dialModeErrors i

/-- One iteration of the source loop that re-derives the output dial modes
from a resolved transport identifier (a later match overwrites an earlier
one). -/
def dialStep (acc : Option String × Option String) (t : String) : Option String × Option String :=
  if t == "daily_pstn_dialin" then (some "dial-in", acc.2)
  else if t == "daily_pstn_dialout" then (some "dial-out", acc.2)
  else if t == "twilio_daily_sip_dialin" then (acc.1, some "dial-in")
  else if t == "twilio_daily_sip_dialout" then (acc.1, some "dial-out")
  else acc

/-- Output dial modes, re-derived by scanning the resolved transport
identifiers (the source loop over resolved_transports). -/
def deriveDialModes (resolved : List String) : Option String × Option String :=
  resolved.foldl dialStep (none, none)

/-- The success-path record of the source (the defaults applied after the
error check: per-mode service nulling, video-output forcing, client
resolution, dial-mode re-derivation). -/
def buildConfig (i : RawInput) : ProjectConfig :=
  { project_name := i.name
    bot_type := i.bot_type
    transports := resolvedTransports i
    mode := i.mode
    stt_service := if i.mode == some "cascade" then i.stt else none
    llm_service := if i.mode == some "cascade" then i.llm else none
    tts_service := if i.mode == some "cascade" then i.tts else none
    realtime_service := if i.mode == some "realtime" then i.realtime else none
    video_service := i.video
    generate_client := (clientResolve i).1
    client_framework := (clientResolve i).2.1
    client_server := (clientResolve i).2.2
    daily_pstn_mode := (deriveDialModes (resolvedTransports i)).1
    twilio_daily_sip_mode := (deriveDialModes (resolvedTransports i)).2
    video_input := i.video_input
    video_output := if tS i.video then true else i.video_output
    recording := i.recording
    transcription := i.transcription
    deploy_to_cloud := i.deploy_to_cloud
    enable_krisp := i.enable_krisp
    enable_observability := i.observability }

/-- The validator: a single pass in source statement order, accumulating
every violation, then either raising (Except.error) with the complete list
or building the resolved record. -/
def validate_and_build_config (i : RawInput) : Except (List String) ProjectConfig :=
  let tr := transportFold i (i.transport.getD [])
  let resolved := tr.2
  let errors :=
    nameErrors i ++ botTypeErrors i ++ transportPresenceErrors i ++ modeEnumErrors i
      ++ tr.1
      ++ (if tS i.bot_type && !resolved.isEmpty then resolved.filterMap (crossCheckMsg i) else [])
      ++ modeServiceErrors i ++ videoErrors i ++ clientErrors i ++ crossFieldErrors i
      ++ dialModeErrors i
  if errors = [] then
    .ok
      { project_name := i.name
        bot_type := i.bot_type
        transports := resolved
        mode := i.mode
        stt_service := if i.mode == some "cascade" then i.stt else none
        llm_service := if i.mode == some "cascade" then i.llm else none
        tts_service := if i.mode == some "cascade" then i.tts else none
        realtime_service := if i.mode == some "realtime" then i.realtime else none
        video_service := i.video
        generate_client := (clientResolve i).1
        client_framework := (clientResolve i).2.1
        client_server := (clientResolve i).2.2
        daily_pstn_mode := (deriveDialModes resolved).1
        twilio_daily_sip_mode := (deriveDialModes resolved).2
        video_input := i.video_input
        video_output := if tS i.video then true else i.video_output
        recording := i.recording
        transcription := i.transcription
        deploy_to_cloud := i.deploy_to_cloud
        enable_krisp := i.enable_krisp
        enable_observability := i.observability }
  else .error errors

-- Serialization (config_to_json) and the config-file loading path.

/-- A flat JSON value as produced by config_to_json: null, a string, a list
of strings, or a boolean. -/
inductive JVal where
  | null : JVal
  | str : String → JVal
  | arr : List String → JVal
  | boolean : Bool → JVal
deriving Repr, DecidableEq

/-- Serialization of an optional string field (None becomes JSON null). -/
def jsonOfOpt : Option String → JVal
  | none => .null
  | some s => .str s

/-- config_to_json of the source: the flat key-ordered JSON object holding
every ProjectConfig field (modelled as the underlying key/value list of the
emitted JSON text). -/
def config_to_json (config : ProjectConfig) : List (String × JVal) :=
  [("project_name", jsonOfOpt config.project_name),
   ("bot_type", jsonOfOpt config.bot_type),
   ("transports", .arr config.transports),
   ("mode", jsonOfOpt config.mode),
   ("stt_service", jsonOfOpt config.stt_service),
   ("llm_service", jsonOfOpt config.llm_service),
   ("tts_service", jsonOfOpt config.tts_service),
   ("realtime_service", jsonOfOpt config.realtime_service),
   ("video_service", jsonOfOpt config.video_service),
   ("generate_client", .boolean config.generate_client),
   ("client_framework", jsonOfOpt config.client_framework),
   ("client_server", jsonOfOpt config.client_server),
   ("daily_pstn_mode", jsonOfOpt config.daily_pstn_mode),
   ("twilio_daily_sip_mode", jsonOfOpt config.twilio_daily_sip_mode),
   ("video_input", .boolean config.video_input),
   ("video_output", .boolean config.video_output),
   ("recording", .boolean config.recording),
   ("transcription", .boolean config.transcription),
   ("deploy_to_cloud", .boolean config.deploy_to_cloud),
   ("enable_krisp", .boolean config.enable_krisp),
   ("enable_observability", .boolean config.enable_observability)]

/-- Python dict.get(key): the value of the first matching key, if any. -/
def jGet (d : List (String × JVal)) (k : String) : Option JVal :=
  (d.find? (fun kv => kv.1 == k)).map (fun kv => kv.2)

/-- dict.get(key) read as an optional string: an absent key and an explicit
JSON null both give None, as in Python. -/
def getStr (d : List (String × JVal)) (k : String) : Option String :=
  match jGet d k with
  | some (.str s) => some s
  | _ => none

/-- dict.get(key) read as an optional string list. -/
def getArr (d : List (String × JVal)) (k : String) : Option (List String) :=
  match jGet d k with
  | some (.arr xs) => some xs
  | _ => none

/-- dict.get(key, default) read as a boolean. -/
def getBool (d : List (String × JVal)) (k : String) (dflt : Bool) : Bool :=
  match jGet d k with
  | some (.boolean b) => b
  | some _ => dflt
  | none => dflt

/-- Python x or y on optional strings (the short-alias fallback of the
loading path): the first operand wins when truthy. -/
def pyOrS (a b : Option String) : Option String :=
  if tS a then a else b

/-- Python x or y on optional string lists. -/
def pyOrL (a b : Option (List String)) : Option (List String) :=
  if tL a then a else b

/-- The config-file loading path: maps the recognized keys of a loaded JSON
object to the validator inputs, honoring both the short and the
_service-suffixed spelling per semantic field, exactly as _parse_config_dict
in the repository tests and the file branch of init_command do.  (Both of
those also read a smart_turn key and pass it as a smart_turn keyword
argument; the validator source has no such parameter, so that keyword has no
counterpart here — see the end-to-end scenario theorem notes.) -/
def parse_config_dict (d : List (String × JVal)) : RawInput :=
  { name := pyOrS (getStr d "name") (getStr d "project_name")
    bot_type := getStr d "bot_type"
    transport := pyOrL (getArr d "transports") (getArr d "transport")
    mode := getStr d "mode"
    stt := pyOrS (getStr d "stt") (getStr d "stt_service")
    llm := pyOrS (getStr d "llm") (getStr d "llm_service")
    tts := pyOrS (getStr d "tts") (getStr d "tts_service")
    realtime := pyOrS (getStr d "realtime") (getStr d "realtime_service")
    video := pyOrS (getStr d "video") (getStr d "video_service")
    client_framework := getStr d "client_framework"
    client_server := getStr d "client_server"
    daily_pstn_mode := getStr d "daily_pstn_mode"
    twilio_daily_sip_mode := getStr d "twilio_daily_sip_mode"
    recording := getBool d "recording" false
    transcription := getBool d "transcription" false
    video_input := getBool d "video_input" false
    video_output := getBool d "video_output" false
    deploy_to_cloud := getBool d "deploy_to_cloud" true
    enable_krisp := getBool d "enable_krisp" false
    observability := getBool d "observability" (getBool d "enable_observability" false) }

/-- The round trip of the spec: serialize a resolved record and feed the
recognized keys back through the loading path. -/
def reparse (c : ProjectConfig) : RawInput :=
  parse_config_dict (config_to_json c)

/-- The validator input a resolved record reads back to (provided its
transport list is non-empty): every field returns unchanged. -/
def inputOfConfig (c : ProjectConfig) : RawInput :=
  { name := c.project_name
    bot_type := c.bot_type
    transport := some c.transports
    mode := c.mode
    stt := c.stt_service
    llm := c.llm_service
    tts := c.tts_service
    realtime := c.realtime_service
    video := c.video_service
    client_framework := c.client_framework
    client_server := c.client_server
    daily_pstn_mode := c.daily_pstn_mode
    twilio_daily_sip_mode := c.twilio_daily_sip_mode
    recording := c.recording
    transcription := c.transcription
    video_input := c.video_input
    video_output := c.video_output
    deploy_to_cloud := c.deploy_to_cloud
    enable_krisp := c.enable_krisp
    observability := c.enable_observability }

-- Token-resolution lemmas.

/-- The resolved identifier a token turns into on the success path (the
token itself for catalog tokens, the mode-qualified identifier for the two
generic tokens). -/
def resolveValue (i : RawInput) (t : String) : String :=
  match resolveToken i t with
  | .ok r => r
  | .error _ => t

/-- The invariants every successfully constructed ProjectConfig satisfies
(section 3 of the spec, phrased over the output record). -/
structure GoodConfig (c : ProjectConfig) : Prop where
  name_t : tS c.project_name = true
  bt : c.bot_type = some "web" ∨ c.bot_type = some "telephony"
  tr_ne : c.transports ≠ []
  tr_cat : ∀ t ∈ c.transports, valid_transport_values.contains t = true
  md : c.mode = some "cascade" ∨ c.mode = some "realtime"
  cross : ∀ t ∈ c.transports, c.bot_type = some "web" → telephony_values.contains t = false
  stt_ok : c.mode = some "cascade" → tS c.stt_service = true ∧
    (_get_valid_values ServiceRegistry.STT_SERVICES).contains (c.stt_service.getD "") = true
  llm_ok : c.mode = some "cascade" → tS c.llm_service = true ∧
    (_get_valid_values ServiceRegistry.LLM_SERVICES).contains (c.llm_service.getD "") = true
  tts_ok : c.mode = some "cascade" → tS c.tts_service = true ∧
    (_get_valid_values ServiceRegistry.TTS_SERVICES).contains (c.tts_service.getD "") = true
  rt_none : c.mode = some "cascade" → c.realtime_service = none
  rt_ok : c.mode = some "realtime" → tS c.realtime_service = true ∧
    (_get_valid_values ServiceRegistry.REALTIME_SERVICES).contains (c.realtime_service.getD "") = true
  cascade_none : c.mode = some "realtime" →
    c.stt_service = none ∧ c.llm_service = none ∧ c.tts_service = none
  vid_ok : tS c.video_service = true →
    (_get_valid_values ServiceRegistry.VIDEO_SERVICES).contains (c.video_service.getD "") = true
      ∧ c.bot_type ≠ some "telephony"
  vid_force : tS c.video_service = true → c.video_output = true
  vi_tel : c.bot_type = some "telephony" → c.video_input = false
  vo_tel : c.bot_type = some "telephony" → c.video_output = false
  krisp : c.enable_krisp = true → c.deploy_to_cloud = true
  cf_cases : c.client_framework = none ∨ c.client_framework = some ""
    ∨ c.client_framework = some "react" ∨ c.client_framework = some "vanilla"
  cf_web : c.client_framework = some "react" ∨ c.client_framework = some "vanilla" →
    c.bot_type ≠ some "telephony"
  cs_react : c.client_framework = some "react" → tS c.client_server = true →
    c.client_server = some "vite" ∨ c.client_server = some "nextjs"
  cs_vanilla : c.client_framework = some "vanilla" → c.client_server = some "vite"
  cf_empty : c.client_framework = some "" → tS c.client_server = false
  gen : c.generate_client =
    (c.client_framework == some "react" || c.client_framework == some "vanilla")
  dial1 : c.daily_pstn_mode = (deriveDialModes c.transports).1
  dial2 : c.twilio_daily_sip_mode = (deriveDialModes c.transports).2

attribute [ext] ProjectConfig

attribute [ext] RawInput

-- Concrete fixtures used by the claim theorems and witnesses.

/-- The all-defaults call (no argument supplied). -/
def emptyInput : RawInput := {}

/-- The end-to-end cascade scenario input of the spec. -/
def cascadeInput : RawInput :=
  { name := some "my-bot", bot_type := some "web", transport := some ["daily"],
    mode := some "cascade", stt := some "deepgram_stt", llm := some "openai_llm",
    tts := some "cartesia_tts" }

/-- The record the end-to-end cascade scenario resolves to. -/
def cascadeOutput : ProjectConfig :=
  { project_name := some "my-bot", bot_type := some "web", transports := ["daily"],
    mode := some "cascade", stt_service := some "deepgram_stt",
    llm_service := some "openai_llm", tts_service := some "cartesia_tts",
    realtime_service := none, video_service := none, generate_client := false,
    client_framework := none, client_server := none, daily_pstn_mode := none,
    twilio_daily_sip_mode := none, video_input := false, video_output := false,
    recording := false, transcription := false, deploy_to_cloud := true,
    enable_krisp := false, enable_observability := false }

/-- A cascade input that omits the three cascade services. -/
def cascadeNoServicesInput : RawInput :=
  { name := some "bot", bot_type := some "web", transport := some ["daily"],
    mode := some "cascade" }

/-- A web bot requesting a telephony transport. -/
def webTelInput : RawInput :=
  { name := some "bot", bot_type := some "web", transport := some ["twilio"],
    mode := some "cascade", stt := some "deepgram_stt", llm := some "openai_llm",
    tts := some "cartesia_tts" }

/-- A telephony bot adding a web transport for local testing. -/
def telWebInput : RawInput :=
  { name := some "bot", bot_type := some "telephony", transport := some ["telnyx", "smallwebrtc"],
    mode := some "cascade", stt := some "deepgram_stt", llm := some "openai_llm",
    tts := some "elevenlabs_tts" }

/-- A generic daily_pstn request with dial-in, alongside the literal
dial-out identifier. -/
def mixedDialInput : RawInput :=
  { name := some "bot", bot_type := some "telephony",
    transport := some ["daily_pstn", "daily_pstn_dialout"],
    daily_pstn_mode := some "dial-in",
    mode := some "cascade", stt := some "deepgram_stt", llm := some "openai_llm",
    tts := some "cartesia_tts" }

/-- The record the mixed daily_pstn request resolves to: the scan of the
resolved identifiers lets the later dial-out entry win. -/
def mixedDialOutput : ProjectConfig :=
  { project_name := some "bot", bot_type := some "telephony",
    transports := ["daily_pstn_dialin", "daily_pstn_dialout"],
    mode := some "cascade", stt_service := some "deepgram_stt",
    llm_service := some "openai_llm", tts_service := some "cartesia_tts",
    realtime_service := none, video_service := none, generate_client := false,
    client_framework := none, client_server := none, daily_pstn_mode := some "dial-out",
    twilio_daily_sip_mode := none, video_input := false, video_output := false,
    recording := false, transcription := false, deploy_to_cloud := true,
    enable_krisp := false, enable_observability := false }

/-- A plain generic daily_pstn dial-out request. -/
def pstnOutInput : RawInput :=
  { name := some "bot", bot_type := some "telephony", transport := some ["daily_pstn"],
    daily_pstn_mode := some "dial-out",
    mode := some "cascade", stt := some "deepgram_stt", llm := some "openai_llm",
    tts := some "cartesia_tts" }

/-- The record the plain dial-out request resolves to. -/
def pstnOutOutput : ProjectConfig :=
  { project_name := some "bot", bot_type := some "telephony",
    transports := ["daily_pstn_dialout"],
    mode := some "cascade", stt_service := some "deepgram_stt",
    llm_service := some "openai_llm", tts_service := some "cartesia_tts",
    realtime_service := none, video_service := none, generate_client := false,
    client_framework := none, client_server := none, daily_pstn_mode := some "dial-out",
    twilio_daily_sip_mode := none, video_input := false, video_output := false,
    recording := false, transcription := false, deploy_to_cloud := true,
    enable_krisp := false, enable_observability := false }

/-- A plain generic daily_pstn dial-in request (round-trip witness). -/
def pstnInInput : RawInput :=
  { name := some "bot", bot_type := some "telephony", transport := some ["daily_pstn"],
    daily_pstn_mode := some "dial-in",
    mode := some "cascade", stt := some "deepgram_stt", llm := some "openai_llm",
    tts := some "cartesia_tts" }

/-- The record the plain dial-in request resolves to. -/
def pstnInOutput : ProjectConfig :=
  { project_name := some "bot", bot_type := some "telephony",
    transports := ["daily_pstn_dialin"],
    mode := some "cascade", stt_service := some "deepgram_stt",
    llm_service := some "openai_llm", tts_service := some "cartesia_tts",
    realtime_service := none, video_service := none, generate_client := false,
    client_framework := none, client_server := none, daily_pstn_mode := some "dial-in",
    twilio_daily_sip_mode := none, video_input := false, video_output := false,
    recording := false, transcription := false, deploy_to_cloud := true,
    enable_krisp := false, enable_observability := false }

/-- A web input declining a client while still passing a client server. -/
def clientNoneInput : RawInput :=
  { name := some "bot", bot_type := some "web", transport := some ["daily"],
    mode := some "cascade", stt := some "deepgram_stt", llm := some "openai_llm",
    tts := some "cartesia_tts", client_framework := some "none", client_server := some "vite" }

/-- The record the declined-client input resolves to: the framework is
normalized away but the server string is retained. -/
def clientNoneOutput : ProjectConfig :=
  { project_name := some "bot", bot_type := some "web", transports := ["daily"],
    mode := some "cascade", stt_service := some "deepgram_stt",
    llm_service := some "openai_llm", tts_service := some "cartesia_tts",
    realtime_service := none, video_service := none, generate_client := false,
    client_framework := none, client_server := some "vite", daily_pstn_mode := none,
    twilio_daily_sip_mode := none, video_input := false, video_output := false,
    recording := false, transcription := false, deploy_to_cloud := true,
    enable_krisp := false, enable_observability := false }

/-- A daily_pstn request whose dial mode is not a dial direction. -/
def badDialInput : RawInput :=
  { name := some "bot", bot_type := some "telephony", transport := some ["daily_pstn"],
    daily_pstn_mode := some "sideways",
    mode := some "cascade", stt := some "deepgram_stt", llm := some "openai_llm",
    tts := some "cartesia_tts" }

/-- A dial mode supplied although no transport shares the base name. -/
def strayDialInput : RawInput :=
  { transport := some ["daily"], daily_pstn_mode := some "dial-in" }

/-- A web cascade input selecting a video avatar while explicitly passing
video_output = false. -/
def videoInput : RawInput :=
  { name := some "bot", bot_type := some "web", transport := some ["daily"],
    mode := some "cascade", stt := some "deepgram_stt", llm := some "openai_llm",
    tts := some "cartesia_tts", video := some "tavus_video", video_output := false }

/-- The record the video input resolves to: video output is forced on. -/
def videoOutputCfg : ProjectConfig :=
  { project_name := some "bot", bot_type := some "web", transports := ["daily"],
    mode := some "cascade", stt_service := some "deepgram_stt",
    llm_service := some "openai_llm", tts_service := some "cartesia_tts",
    realtime_service := none, video_service := some "tavus_video", generate_client := false,
    client_framework := none, client_server := none, daily_pstn_mode := none,
    twilio_daily_sip_mode := none, video_input := false, video_output := true,
    recording := false, transcription := false, deploy_to_cloud := true,
    enable_krisp := false, enable_observability := false }

-- Bridge lemmas between the single-pass validator and the block
-- decomposition.

/-- The single accumulation pass splits into the error half and the
resolved half, each a filterMap in input order. -/
lemma transportFold_go (i : RawInput) (ts : List String) :
    ∀ (a b : List String),
      ts.foldl
        (fun acc t =>
          match resolveToken i t with
          | .error e => (acc.1 ++ [e], acc.2)
          | .ok r => (acc.1, acc.2 ++ [r]))
        (a, b)
      = (a ++ ts.filterMap (fun t => errSide (resolveToken i t)),
         b ++ ts.filterMap (fun t => okSide (resolveToken i t))) := by
  induction ts with
  | nil => intro a b; simp
  | cons t ts ih =>
    intro a b
    simp only [List.foldl_cons, List.filterMap_cons]
    cases h : resolveToken i t with
    | error e => simp [h, ih, errSide, okSide, List.append_assoc]
    | ok r => simp [h, ih, errSide, okSide, List.append_assoc]

/-- The loop of the validator computes exactly the two block lists. -/
lemma transportFold_main (i : RawInput) :
    transportFold i (i.transport.getD []) = (transportErrors i, resolvedTransports i) := by
  unfold transportFold transportErrors resolvedTransports
  rw [transportFold_go]
  simp

/-- The validator in terms of the block decomposition: it returns the
resolved record exactly when the complete violation list is empty, and
raises that complete list otherwise. -/
lemma validate_eq (i : RawInput) :
    validate_and_build_config i =
      if errorsAll i = [] then .ok (buildConfig i) else .error (errorsAll i) := by
  unfold validate_and_build_config
  rw [transportFold_main]
  rfl

/-- Success inversion: a returned record is the built record and no rule is
violated. -/
lemma validate_ok_iff (i : RawInput) (c : ProjectConfig) :
    validate_and_build_config i = .ok c ↔ errorsAll i = [] ∧ c = buildConfig i := by
  rw [validate_eq]
  by_cases h : errorsAll i = []
  · simp [h, eq_comm]
  · simp [h]

/-- Failure inversion: a raised list is the complete violation list, and it
is non-empty. -/
lemma validate_error_iff (i : RawInput) (es : List String) :
    validate_and_build_config i = .error es ↔ errorsAll i ≠ [] ∧ es = errorsAll i := by
  rw [validate_eq]
  by_cases h : errorsAll i = []
  · simp [h]
  · simp [h, eq_comm]

/-- Emptiness of the complete list is emptiness of every block. -/
lemma errorsAll_eq_nil_iff (i : RawInput) :
    errorsAll i = [] ↔
      nameErrors i = [] ∧ botTypeErrors i = [] ∧ transportPresenceErrors i = []
        ∧ modeEnumErrors i = [] ∧ transportErrors i = [] ∧ crossTransportErrors i = []
        ∧ modeServiceErrors i = [] ∧ videoErrors i = [] ∧ clientErrors i = []
        ∧ crossFieldErrors i = [] ∧ dialModeErrors i = [] := by
  simp [errorsAll, List.append_eq_nil, and_assoc]

-- Extraction lemmas: what an empty error block says about the input.

/-- An empty name block means the name was supplied non-empty. -/
lemma nameErrors_nil {i : RawInput} (h : nameErrors i = []) : tS i.name = true := by
  by_cases ht : tS i.name
  · exact ht
  · simp [nameErrors, ht] at h

/-- An empty bot-type block means the bot type is one of the two literal
tokens. -/
lemma botTypeErrors_nil {i : RawInput} (h : botTypeErrors i = []) :
    i.bot_type = some "web" ∨ i.bot_type = some "telephony" := by
  rcases hb : i.bot_type with _ | b
  · unfold botTypeErrors at h; rw [hb] at h; simp at h
  · unfold botTypeErrors at h; rw [hb] at h
    by_cases h0 : b = ""
    · simp [h0] at h
    · by_cases hw : b = "web"
      · exact Or.inl (by rw [hw])
      · by_cases ht2 : b = "telephony"
        · exact Or.inr (by rw [ht2])
        · simp [h0, hw, ht2] at h

/-- An empty transport-presence block means a non-empty transport list was
supplied. -/
lemma transportPresenceErrors_nil {i : RawInput} (h : transportPresenceErrors i = []) :
    ∃ ts, i.transport = some ts ∧ ts ≠ [] := by
  by_cases ht : tL i.transport
  · rcases hq : i.transport with _ | ts
    · rw [hq] at ht; simp [tL] at ht
    · refine ⟨ts, rfl, ?_⟩
      rw [hq] at ht
      simpa [tL, List.isEmpty_iff] using ht
  · simp [transportPresenceErrors, ht] at h

/-- An empty mode block means the mode is one of the two literal tokens. -/
lemma modeEnumErrors_nil {i : RawInput} (h : modeEnumErrors i = []) :
    i.mode = some "cascade" ∨ i.mode = some "realtime" := by
  rcases hb : i.mode with _ | m
  · unfold modeEnumErrors at h; rw [hb] at h; simp at h
  · unfold modeEnumErrors at h; rw [hb] at h
    by_cases h0 : m = ""
    · simp [h0] at h
    · by_cases hc : m = "cascade"
      · exact Or.inl (by rw [hc])
      · by_cases hr : m = "realtime"
        · exact Or.inr (by rw [hr])
        · simp [h0, hc, hr] at h

/-- An empty service check means the value was supplied and is in the
catalog. -/
lemma serviceCheck_nil {o : Option String} {values : List String}
    {reqMsg : String} {unkMsg : String → String}
    (h : serviceCheck o values reqMsg unkMsg = []) :
    tS o = true ∧ values.contains (o.getD "") = true := by
  rcases ho : o with _ | s
  · unfold serviceCheck at h; rw [ho] at h; simp at h
  · unfold serviceCheck at h; rw [ho] at h
    by_cases h0 : s = ""
    · simp [h0] at h
    · have hs : (s == "") = false := by
        cases hsb : (s == "") with
        | true => exact absurd (by simpa using hsb) h0
        | false => rfl
      have h' : (if (s == "") = true then [reqMsg]
          else if (!values.contains s) = true then [unkMsg s] else []) = ([] : List String) := h
      rw [hs] at h'
      simp only [Bool.false_eq_true, if_false] at h'
      cases hcon : values.contains s with
      | true => exact ⟨by simp [tS, hs], by simpa using hcon⟩
      | false => rw [hcon] at h'; simp at h'

/-- A supplied in-catalog value passes the service check. -/
lemma serviceCheck_of_ok {o : Option String} {values : List String}
    {reqMsg : String} {unkMsg : String → String}
    (h1 : tS o = true) (h2 : values.contains (o.getD "") = true) :
    serviceCheck o values reqMsg unkMsg = [] := by
  rcases ho : o with _ | s
  · rw [ho] at h1; simp [tS] at h1
  · rw [ho] at h1 h2
    have hs : (s == "") = false := by
      cases hsb : (s == "") with
      | true => rw [tS, hsb] at h1; simp at h1
      | false => rfl
    simp only [Option.getD_some] at h2
    show (if (s == "") = true then [reqMsg]
        else if (!values.contains s) = true then [unkMsg s] else []) = ([] : List String)
    rw [hs, h2]
    simp

/-- A token yields no error exactly when it resolves. -/
lemma errSide_eq_none {x : Except String String} :
    errSide x = none ↔ ∃ r, x = .ok r := by
  cases x <;> simp [errSide]

/-- Catalog tokens resolve to themselves (no catalog identifier is one of
the two generic names, so the generic branches are never taken). -/
lemma resolveToken_of_cat {i : RawInput} {t : String}
    (h : valid_transport_values.contains t = true) :
    resolveToken i t = .ok t := by
  have hm : t ∈ valid_transport_values := by simpa using h
  simp only [valid_transport_values, _get_valid_values, ServiceRegistry.WEBRTC_TRANSPORTS,
    ServiceRegistry.TELEPHONY_TRANSPORTS, List.map_append, List.map_cons, List.map_nil,
    List.append_assoc, List.cons_append, List.nil_append, List.mem_cons,
    List.not_mem_nil, or_false] at hm
  rcases hm with h1 | h1 | h1 | h1 | h1 | h1 | h1 | h1 <;> subst h1 <;> rfl

/-- Full case analysis of a successful token resolution. -/
lemma resolveToken_ok_cases {i : RawInput} {t r : String}
    (h : resolveToken i t = .ok r) :
    (t = "daily_pstn" ∧
       ((i.daily_pstn_mode = some "dial-in" ∧ r = "daily_pstn_dialin") ∨
        (i.daily_pstn_mode = some "dial-out" ∧ r = "daily_pstn_dialout"))) ∨
    (t = "twilio_daily_sip" ∧
       ((i.twilio_daily_sip_mode = some "dial-in" ∧ r = "twilio_daily_sip_dialin") ∨
        (i.twilio_daily_sip_mode = some "dial-out" ∧ r = "twilio_daily_sip_dialout"))) ∨
    (t ≠ "daily_pstn" ∧ t ≠ "twilio_daily_sip" ∧ valid_transport_values.contains t = true ∧ r = t) := by
  unfold resolveToken at h
  by_cases h1 : t = "daily_pstn"
  · subst h1
    rw [if_pos (by decide : (("daily_pstn" : String) == "daily_pstn") = true)] at h
    rcases hm : i.daily_pstn_mode with _ | m
    · rw [hm] at h; simp at h
    · rw [hm] at h
      have hq : (if (m == "") = true then (.error msgDailyPstnModeRequired : Except String String)
          else if (m != "dial-in" && m != "dial-out") = true then .error (msgDailyPstnModeInvalid m)
          else .ok ("daily_pstn_" ++ stripDashes m)) = .ok r := h
      by_cases hm0 : m = ""
      · simp [hm0] at hq
      · by_cases hdi : m = "dial-in"
        · subst hdi
          rw [if_neg (by decide), if_neg (by decide)] at hq
          refine Or.inl ⟨rfl, Or.inl ⟨rfl, ?_⟩⟩
          have hinj := Except.ok.inj hq
          rw [← hinj]; decide
        · by_cases hdo : m = "dial-out"
          · subst hdo
            rw [if_neg (by decide), if_neg (by decide)] at hq
            refine Or.inl ⟨rfl, Or.inr ⟨rfl, ?_⟩⟩
            have hinj := Except.ok.inj hq
            rw [← hinj]; decide
          · have hbad : (m != "dial-in" && m != "dial-out") = true := by
              simp [hdi, hdo]
            simp [hm0, hbad] at hq
  · by_cases h2 : t = "twilio_daily_sip"
    · subst h2
      rw [if_neg (by decide : ¬ ((("twilio_daily_sip" : String) == "daily_pstn") = true)),
        if_pos (by decide : (("twilio_daily_sip" : String) == "twilio_daily_sip") = true)] at h
      rcases hm : i.twilio_daily_sip_mode with _ | m
      · rw [hm] at h; simp at h
      · rw [hm] at h
        have hq : (if (m == "") = true then (.error msgTwilioSipModeRequired : Except String String)
            else if (m != "dial-in" && m != "dial-out") = true then .error (msgTwilioSipModeInvalid m)
            else .ok ("twilio_daily_sip_" ++ stripDashes m)) = .ok r := h
        by_cases hm0 : m = ""
        · simp [hm0] at hq
        · by_cases hdi : m = "dial-in"
          · subst hdi
            rw [if_neg (by decide), if_neg (by decide)] at hq
            refine Or.inr (Or.inl ⟨rfl, Or.inl ⟨rfl, ?_⟩⟩)
            have hinj := Except.ok.inj hq
            rw [← hinj]; decide
          · by_cases hdo : m = "dial-out"
            · subst hdo
              rw [if_neg (by decide), if_neg (by decide)] at hq
              refine Or.inr (Or.inl ⟨rfl, Or.inr ⟨rfl, ?_⟩⟩)
              have hinj := Except.ok.inj hq
              rw [← hinj]; decide
            · have hbad : (m != "dial-in" && m != "dial-out") = true := by
                simp [hdi, hdo]
              simp [hm0, hbad] at hq
    · have e1 : ¬ ((t == "daily_pstn") = true) := by simp [h1]
      have e2 : ¬ ((t == "twilio_daily_sip") = true) := by simp [h2]
      rw [if_neg e1, if_neg e2] at h
      by_cases hc : valid_transport_values.contains t
      · rw [if_pos hc] at h
        have hinj := Except.ok.inj h
        exact Or.inr (Or.inr ⟨h1, h2, hc, hinj.symm⟩)
      · rw [if_neg hc] at h; simp at h

/-- A successful resolution lands in the transport catalog. -/
lemma resolveToken_ok_cat {i : RawInput} {t r : String}
    (h : resolveToken i t = .ok r) :
    valid_transport_values.contains r = true := by
  rcases resolveToken_ok_cases h with ⟨_, hc | hc⟩ | ⟨_, hc | hc⟩ | ⟨_, _, hc, hr⟩
  · rw [hc.2]; decide
  · rw [hc.2]; decide
  · rw [hc.2]; decide
  · rw [hc.2]; decide
  · rw [hr]; exact hc

/-- No catalog identifier is a generic name. -/
lemma cat_not_generic {t : String} (h : valid_transport_values.contains t = true) :
    t ≠ "daily_pstn" ∧ t ≠ "twilio_daily_sip" := by
  have hm : t ∈ valid_transport_values := by simpa using h
  simp only [valid_transport_values, _get_valid_values, ServiceRegistry.WEBRTC_TRANSPORTS,
    ServiceRegistry.TELEPHONY_TRANSPORTS, List.map_append, List.map_cons, List.map_nil,
    List.append_assoc, List.cons_append, List.nil_append, List.mem_cons,
    List.not_mem_nil, or_false] at hm
  rcases hm with h1 | h1 | h1 | h1 | h1 | h1 | h1 | h1 <;> subst h1 <;> exact ⟨by decide, by decide⟩

/-- When every token resolves, the resolved list is the per-token image, in
order. -/
lemma filterMap_okSide_eq_map (i : RawInput) :
    ∀ ts : List String, (∀ t ∈ ts, ∃ r, resolveToken i t = .ok r) →
      ts.filterMap (fun t => okSide (resolveToken i t)) = ts.map (resolveValue i) := by
  intro ts
  induction ts with
  | nil => intro _; rfl
  | cons t ts ih =>
    intro hall
    obtain ⟨r, hr⟩ := hall t (by simp)
    have h1 : okSide (resolveToken i t) = some r := by rw [hr]; rfl
    have h2 : resolveValue i t = r := by unfold resolveValue; rw [hr]
    simp only [List.filterMap_cons, List.map_cons, h1, h2]
    rw [ih (fun x hx => hall x (by simp [hx]))]

/-- Every member of the resolved list comes from a successfully resolved
input token. -/
lemma mem_resolved_ok {i : RawInput} {r : String} (h : r ∈ resolvedTransports i) :
    ∃ t ∈ i.transport.getD [], resolveToken i t = .ok r := by
  unfold resolvedTransports at h
  obtain ⟨t, ht, hok⟩ := List.mem_filterMap.mp h
  refine ⟨t, ht, ?_⟩
  cases hx : resolveToken i t with
  | error e => rw [hx] at hok; simp [okSide] at hok
  | ok v =>
    rw [hx] at hok
    simp only [okSide, Option.some.injEq] at hok
    rw [hok]

/-- An empty transport block means every input token resolves. -/
lemma transportErrors_nil {i : RawInput} (h : transportErrors i = []) :
    ∀ t ∈ i.transport.getD [], ∃ r, resolveToken i t = .ok r := by
  intro t ht
  have := List.filterMap_eq_nil_iff.mp h t ht
  exact errSide_eq_none.mp this

/-- An empty cross-check block means no resolved transport is a telephony
transport on a web bot. -/
lemma cross_nil {i : RawInput} (h : crossTransportErrors i = []) :
    ∀ t ∈ resolvedTransports i, i.bot_type = some "web" → telephony_values.contains t = false := by
  intro t ht hw
  by_cases hg : (tS i.bot_type && !(resolvedTransports i).isEmpty) = true
  · unfold crossTransportErrors at h
    rw [if_pos hg] at h
    have hnone := List.filterMap_eq_nil_iff.mp h t ht
    unfold crossCheckMsg at hnone
    cases hcon : telephony_values.contains t with
    | false => rfl
    | true =>
      rw [hw, hcon] at hnone
      simp at hnone
  · exfalso
    rw [hw] at hg
    have hie : (resolvedTransports i).isEmpty = true := by
      cases hie : (resolvedTransports i).isEmpty with
      | true => rfl
      | false => exact absurd (by simp [tS, hie]) hg
    rw [List.isEmpty_iff] at hie
    rw [hie] at ht
    simp at ht

/-- An empty mode-service block in cascade mode: the three cascade services
are supplied and in catalog, and realtime is absent. -/
lemma modeService_cascade_nil {i : RawInput} (hm : i.mode = some "cascade")
    (h : modeServiceErrors i = []) :
    (tS i.stt = true ∧ (_get_valid_values ServiceRegistry.STT_SERVICES).contains (i.stt.getD "") = true)
    ∧ (tS i.llm = true ∧ (_get_valid_values ServiceRegistry.LLM_SERVICES).contains (i.llm.getD "") = true)
    ∧ (tS i.tts = true ∧ (_get_valid_values ServiceRegistry.TTS_SERVICES).contains (i.tts.getD "") = true)
    ∧ tS i.realtime = false := by
  unfold modeServiceErrors at h
  rw [hm] at h
  rw [if_pos (by decide : ((some "cascade" : Option String) == some "cascade") = true)] at h
  rw [List.append_eq_nil, List.append_eq_nil, List.append_eq_nil] at h
  obtain ⟨⟨⟨h1, h2⟩, h3⟩, h4⟩ := h
  refine ⟨serviceCheck_nil h1, serviceCheck_nil h2, serviceCheck_nil h3, ?_⟩
  cases hr : tS i.realtime with
  | false => rfl
  | true => rw [hr] at h4; simp at h4

/-- An empty mode-service block in realtime mode: the realtime service is
supplied and in catalog, and the cascade services are absent. -/
lemma modeService_realtime_nil {i : RawInput} (hm : i.mode = some "realtime")
    (h : modeServiceErrors i = []) :
    (tS i.realtime = true ∧ (_get_valid_values ServiceRegistry.REALTIME_SERVICES).contains (i.realtime.getD "") = true)
    ∧ tS i.stt = false ∧ tS i.llm = false ∧ tS i.tts = false := by
  unfold modeServiceErrors at h
  rw [hm] at h
  rw [if_neg (by decide : ¬ (((some "realtime" : Option String) == some "cascade") = true))] at h
  rw [if_pos (by decide : ((some "realtime" : Option String) == some "realtime") = true)] at h
  rw [List.append_eq_nil, List.append_eq_nil, List.append_eq_nil] at h
  obtain ⟨⟨⟨h1, h2⟩, h3⟩, h4⟩ := h
  refine ⟨serviceCheck_nil h1, ?_, ?_, ?_⟩
  · cases hr : tS i.stt with
    | false => rfl
    | true => rw [hr] at h2; simp at h2
  · cases hr : tS i.llm with
    | false => rfl
    | true => rw [hr] at h3; simp at h3
  · cases hr : tS i.tts with
    | false => rfl
    | true => rw [hr] at h4; simp at h4

/-- An empty video block: a selected video service is in catalog and the
bot is not a telephony bot. -/
lemma video_nil {i : RawInput} (h : videoErrors i = [])
    (hv : tS i.video = true) :
    (_get_valid_values ServiceRegistry.VIDEO_SERVICES).contains (i.video.getD "") = true
    ∧ i.bot_type ≠ some "telephony" := by
  unfold videoErrors at h
  rw [if_pos hv] at h
  rw [List.append_eq_nil] at h
  obtain ⟨h1, h2⟩ := h
  constructor
  · rcases hov : i.video with _ | v
    · rw [hov] at hv; simp [tS] at hv
    · rw [hov] at h1
      have h1q : (if (!((_get_valid_values ServiceRegistry.VIDEO_SERVICES).contains v)) = true
          then [msgUnknownVideo v] else []) = ([] : List String) := h1
      cases hcon : (_get_valid_values ServiceRegistry.VIDEO_SERVICES).contains v with
      | true => simpa using hcon
      | false => rw [hcon] at h1q; simp at h1q
  · intro hbt
    rw [hbt] at h2
    simp at h2

/-- An empty cross-field block. -/
lemma crossField_nil {i : RawInput} (h : crossFieldErrors i = []) :
    (i.video_input = true → i.bot_type ≠ some "telephony")
    ∧ (i.video_output = true → i.bot_type ≠ some "telephony")
    ∧ (i.enable_krisp = true → i.deploy_to_cloud = true) := by
  unfold crossFieldErrors at h
  rw [List.append_eq_nil, List.append_eq_nil] at h
  obtain ⟨⟨h1, h2⟩, h3⟩ := h
  refine ⟨?_, ?_, ?_⟩
  · intro hvi hbt
    rw [hvi, hbt] at h1
    simp at h1
  · intro hvo hbt
    rw [hvo, hbt] at h2
    simp at h2
  · intro hk
    cases hd : i.deploy_to_cloud with
    | true => rfl
    | false => rw [hk, hd] at h3; simp at h3

/-- An empty client block: either no framework was supplied (and then no
server either), or the framework is one of the allowed tokens on a web bot,
with the server restriction for react. -/
lemma client_nil {i : RawInput} (h : clientErrors i = []) :
    (tS i.client_framework = false ∧ tS i.client_server = false)
    ∨ (∃ cf, i.client_framework = some cf ∧ cf ≠ ""
        ∧ (cf = "react" ∨ cf = "vanilla" ∨ cf = "none")
        ∧ i.bot_type ≠ some "telephony"
        ∧ (cf = "react" → tS i.client_server = true →
            i.client_server = some "vite" ∨ i.client_server = some "nextjs")) := by
  unfold clientErrors at h
  rw [List.append_eq_nil] at h
  obtain ⟨h1, h2⟩ := h
  by_cases hcf : tS i.client_framework
  · right
    rw [if_pos hcf] at h1
    rcases hov : i.client_framework with _ | cf
    · rw [hov] at hcf; simp [tS] at hcf
    · rw [hov] at h1
      have hne : cf ≠ "" := by
        rw [hov] at hcf
        intro he
        rw [tS, he] at hcf
        simp at hcf
      rw [List.append_eq_nil, List.append_eq_nil] at h1
      obtain ⟨⟨ha, hb⟩, hcR⟩ := h1
      refine ⟨cf, rfl, hne, ?_, ?_, ?_⟩
      · by_cases hr : cf = "react"
        · exact Or.inl hr
        · by_cases hv : cf = "vanilla"
          · exact Or.inr (Or.inl hv)
          · by_cases hn : cf = "none"
            · exact Or.inr (Or.inr hn)
            · exfalso
              have : (cf != "react" && cf != "vanilla" && cf != "none") = true := by
                simp [hr, hv, hn]
              rw [this] at ha
              simp at ha
      · intro hbt
        rw [hbt] at hb
        simp at hb
      · intro hr hcs
        subst hr
        rw [if_pos (by decide : (("react" : String) == "react") = true)] at hcR
        rcases hsv : i.client_server with _ | cs
        · rw [hsv] at hcs; simp [tS] at hcs
        · rw [hsv] at hcR
          have hcRq : (if (cs != "" && cs != "vite" && cs != "nextjs") = true
              then [msgClientServerInvalid cs] else []) = ([] : List String) := hcR
          have hcsne : (cs == "") = false := by
            rw [hsv, tS] at hcs
            cases hq : (cs == "") with
            | false => rfl
            | true => rw [hq] at hcs; simp at hcs
          by_cases hvite : cs = "vite"
          · exact Or.inl (by rw [hvite])
          · by_cases hnext : cs = "nextjs"
            · exact Or.inr (by rw [hnext])
            · exfalso
              have hcond : (cs != "" && cs != "vite" && cs != "nextjs") = true := by
                simp only [Bool.and_eq_true, bne_iff_ne, ne_eq]
                refine ⟨⟨?_, hvite⟩, hnext⟩
                intro he
                rw [he] at hcsne
                simp at hcsne
              rw [hcond] at hcRq
              simp at hcRq
  · left
    refine ⟨by simpa using hcf, ?_⟩
    cases hcs : tS i.client_server with
    | false => rfl
    | true =>
      have : (tS i.client_server && !(tS i.client_framework)) = true := by
        simp [hcs, hcf]
      rw [this] at h2
      simp at h2

/-- The client invariants of a clean client block, phrased over the
resolution triple. -/
lemma client_fields_ok {i : RawInput} (h : clientErrors i = []) :
    ((clientResolve i).2.1 = none ∨ (clientResolve i).2.1 = some ""
      ∨ (clientResolve i).2.1 = some "react" ∨ (clientResolve i).2.1 = some "vanilla")
    ∧ ((clientResolve i).2.1 = some "react" ∨ (clientResolve i).2.1 = some "vanilla" →
        i.bot_type ≠ some "telephony")
    ∧ ((clientResolve i).2.1 = some "react" → tS (clientResolve i).2.2 = true →
        (clientResolve i).2.2 = some "vite" ∨ (clientResolve i).2.2 = some "nextjs")
    ∧ ((clientResolve i).2.1 = some "vanilla" → (clientResolve i).2.2 = some "vite")
    ∧ ((clientResolve i).2.1 = some "" → tS (clientResolve i).2.2 = false)
    ∧ (clientResolve i).1 =
        ((clientResolve i).2.1 == some "react" || (clientResolve i).2.1 == some "vanilla") := by
  rcases client_nil h with ⟨hcfF, hcsF⟩ | ⟨cf, hcfEq, hcfne, hallow, hbtne, hreact⟩
  · have hcr : clientResolve i = (false, i.client_framework, i.client_server) := by
      unfold clientResolve
      rw [if_neg (by rw [hcfF]; simp)]
    rw [hcr]
    rcases hov : i.client_framework with _ | s
    · refine ⟨Or.inl rfl, ?_, ?_, ?_, ?_, rfl⟩
      · rintro (hx | hx) <;> simp at hx
      · intro hx; simp at hx
      · intro hx; simp at hx
      · intro hx; simp at hx
    · have hs0 : s = "" := by
        rw [hov, tS] at hcfF
        cases hq : (s == "") with
        | true => simpa using hq
        | false => rw [hq] at hcfF; simp at hcfF
      subst hs0
      refine ⟨Or.inr (Or.inl rfl), ?_, ?_, ?_, ?_, rfl⟩
      · rintro (hx | hx) <;> simp at hx
      · intro hx; simp at hx
      · intro hx; simp at hx
      · intro _; exact hcsF
  · have htcf : tS i.client_framework = true := by
      rw [hcfEq, tS]
      cases hq : (cf == "") with
      | false => rfl
      | true => exact absurd (by simpa using hq) hcfne
    rcases hallow with hr | hv | hn
    · subst hr
      have hcr : clientResolve i = (true, some "react", i.client_server) := by
        unfold clientResolve
        rw [if_pos htcf, hcfEq]
        rfl
      rw [hcr]
      refine ⟨Or.inr (Or.inr (Or.inl rfl)), fun _ => hbtne, ?_, ?_, ?_, rfl⟩
      · intro _ hcs
        exact hreact rfl hcs
      · intro hx; simp at hx
      · intro hx; simp at hx
    · subst hv
      have hcr : clientResolve i = (true, some "vanilla", some "vite") := by
        unfold clientResolve
        rw [if_pos htcf, hcfEq]
        rfl
      rw [hcr]
      refine ⟨Or.inr (Or.inr (Or.inr rfl)), fun _ => hbtne, ?_, fun _ => rfl, ?_, rfl⟩
      · intro hx; simp at hx
      · intro hx; simp at hx
    · subst hn
      have hcr : clientResolve i = (false, none, i.client_server) := by
        unfold clientResolve
        rw [if_pos htcf, hcfEq]
        rfl
      rw [hcr]
      refine ⟨Or.inl rfl, ?_, ?_, ?_, ?_, rfl⟩
      · rintro (hx | hx) <;> simp at hx
      · intro hx; simp at hx
      · intro hx; simp at hx
      · intro hx; simp at hx

/-- Soundness of the success path: every returned record satisfies the
output invariants. -/
lemma goodConfig_of_ok {i : RawInput} {c : ProjectConfig}
    (h : validate_and_build_config i = .ok c) : GoodConfig c := by
  rw [validate_ok_iff] at h
  obtain ⟨hnil, hceq⟩ := h
  rw [errorsAll_eq_nil_iff] at hnil
  obtain ⟨hname, hbt, hpres, hmode, htr, hcross, hsvc, hvid, hcli, hcf2, hdm⟩ := hnil
  obtain ⟨ts, hts, htsne⟩ := transportPresenceErrors_nil hpres
  have hall : ∀ t ∈ ts, ∃ r, resolveToken i t = .ok r := by
    have hx := transportErrors_nil htr
    rw [hts] at hx
    simpa using hx
  have hres : resolvedTransports i = ts.map (resolveValue i) := by
    unfold resolvedTransports
    rw [hts]
    simpa using filterMap_okSide_eq_map i ts hall
  have clientF := client_fields_ok hcli
  have crossF := crossField_nil hcf2
  subst hceq
  exact
    { name_t := nameErrors_nil hname
      bt := botTypeErrors_nil hbt
      tr_ne := by
        show resolvedTransports i ≠ []
        rw [hres]
        simp only [ne_eq, List.map_eq_nil_iff]
        exact htsne
      tr_cat := by
        intro t ht
        obtain ⟨t0, _, hok⟩ := mem_resolved_ok ht
        exact resolveToken_ok_cat hok
      md := modeEnumErrors_nil hmode
      cross := by
        intro t ht hw
        exact cross_nil hcross t ht hw
      stt_ok := by
        intro hmc
        have hmc2 : i.mode = some "cascade" := hmc
        have e : (buildConfig i).stt_service = i.stt := by
          show (if (i.mode == some "cascade") = true then i.stt else none) = i.stt
          rw [hmc2]
          rfl
        rw [e]
        exact (modeService_cascade_nil hmc2 hsvc).1
      llm_ok := by
        intro hmc
        have hmc2 : i.mode = some "cascade" := hmc
        have e : (buildConfig i).llm_service = i.llm := by
          show (if (i.mode == some "cascade") = true then i.llm else none) = i.llm
          rw [hmc2]
          rfl
        rw [e]
        exact (modeService_cascade_nil hmc2 hsvc).2.1
      tts_ok := by
        intro hmc
        have hmc2 : i.mode = some "cascade" := hmc
        have e : (buildConfig i).tts_service = i.tts := by
          show (if (i.mode == some "cascade") = true then i.tts else none) = i.tts
          rw [hmc2]
          rfl
        rw [e]
        exact (modeService_cascade_nil hmc2 hsvc).2.2.1
      rt_none := by
        intro hmc
        have hmc2 : i.mode = some "cascade" := hmc
        show (if (i.mode == some "realtime") = true then i.realtime else none) = none
        rw [hmc2]
        rfl
      rt_ok := by
        intro hmr
        have hmr2 : i.mode = some "realtime" := hmr
        have e : (buildConfig i).realtime_service = i.realtime := by
          show (if (i.mode == some "realtime") = true then i.realtime else none) = i.realtime
          rw [hmr2]
          rfl
        rw [e]
        exact (modeService_realtime_nil hmr2 hsvc).1
      cascade_none := by
        intro hmr
        have hmr2 : i.mode = some "realtime" := hmr
        refine ⟨?_, ?_, ?_⟩
        · show (if (i.mode == some "cascade") = true then i.stt else none) = none
          rw [hmr2]
          rfl
        · show (if (i.mode == some "cascade") = true then i.llm else none) = none
          rw [hmr2]
          rfl
        · show (if (i.mode == some "cascade") = true then i.tts else none) = none
          rw [hmr2]
          rfl
      vid_ok := by
        intro hv
        exact video_nil hvid hv
      vid_force := by
        intro hv
        have hv2 : tS i.video = true := hv
        show (if tS i.video = true then true else i.video_output) = true
        rw [hv2]
        rfl
      vi_tel := by
        intro hbt2
        have hbt3 : i.bot_type = some "telephony" := hbt2
        show i.video_input = false
        cases hvi : i.video_input with
        | false => rfl
        | true => exact absurd hbt3 (crossF.1 hvi)
      vo_tel := by
        intro hbt2
        have hbt3 : i.bot_type = some "telephony" := hbt2
        show (if tS i.video = true then true else i.video_output) = false
        cases hv : tS i.video with
        | true => exact absurd hbt3 (video_nil hvid hv).2
        | false =>
          simp only [Bool.false_eq_true, if_false]
          cases hvo : i.video_output with
          | false => rfl
          | true => exact absurd hbt3 (crossF.2.1 hvo)
      krisp := fun hk => crossF.2.2 hk
      cf_cases := clientF.1
      cf_web := clientF.2.1
      cs_react := clientF.2.2.1
      cs_vanilla := clientF.2.2.2.1
      cf_empty := clientF.2.2.2.2.1
      gen := clientF.2.2.2.2.2
      dial1 := rfl
      dial2 := rfl }

/-- When every token is already a catalog identifier, the loop reports no
error and passes the list through unchanged. -/
lemma filterMap_all_ok (i : RawInput) :
    ∀ ts : List String, (∀ t ∈ ts, resolveToken i t = .ok t) →
      ts.filterMap (fun t => errSide (resolveToken i t)) = []
        ∧ ts.filterMap (fun t => okSide (resolveToken i t)) = ts := by
  intro ts
  induction ts with
  | nil => intro _; exact ⟨rfl, rfl⟩
  | cons t ts ih =>
    intro hall
    have ht := hall t (by simp)
    have hrest := ih (fun x hx => hall x (by simp [hx]))
    have h0 : errSide (resolveToken i t) = none := by rw [ht]; rfl
    have h1 : okSide (resolveToken i t) = some t := by rw [ht]; rfl
    constructor
    · simp only [List.filterMap_cons, h0]
      exact hrest.1
    · simp only [List.filterMap_cons, h1]
      rw [hrest.2]

/-- If the first dial-mode slot of the scan is set, some resolved transport
is one of the two daily dial identifiers. -/
lemma deriveDial_fst_aux :
    ∀ (ts : List String) (acc : Option String × Option String),
      (ts.foldl
        dialStep acc).1 = acc.1
      ∨ (∃ t ∈ ts, t = "daily_pstn_dialin" ∨ t = "daily_pstn_dialout") := by
  intro ts
  induction ts with
  | nil => intro acc; exact Or.inl rfl
  | cons t ts ih =>
    intro acc
    by_cases h1 : t = "daily_pstn_dialin"
    · exact Or.inr ⟨t, by simp, Or.inl h1⟩
    · by_cases h2 : t = "daily_pstn_dialout"
      · exact Or.inr ⟨t, by simp, Or.inr h2⟩
      · have hstep : (dialStep acc t).1 = acc.1 := by
          unfold dialStep
          rw [if_neg (by simp [h1]), if_neg (by simp [h2])]
          by_cases h3 : t = "twilio_daily_sip_dialin"
          · rw [if_pos (by simp [h3])]
          · rw [if_neg (by simp [h3])]
            by_cases h4 : t = "twilio_daily_sip_dialout"
            · rw [if_pos (by simp [h4])]
            · rw [if_neg (by simp [h4])]
        rw [List.foldl_cons]
        rcases ih (dialStep acc t) with hl | hr
        · exact Or.inl (by rw [hl, hstep])
        · exact Or.inr (by
            obtain ⟨x, hx, hd⟩ := hr
            exact ⟨x, by simp [hx], hd⟩)

/-- If the second dial-mode slot of the scan is set, some resolved
transport is one of the two twilio dial identifiers. -/
lemma deriveDial_snd_aux :
    ∀ (ts : List String) (acc : Option String × Option String),
      (ts.foldl
        dialStep acc).2 = acc.2
      ∨ (∃ t ∈ ts, t = "twilio_daily_sip_dialin" ∨ t = "twilio_daily_sip_dialout") := by
  intro ts
  induction ts with
  | nil => intro acc; exact Or.inl rfl
  | cons t ts ih =>
    intro acc
    by_cases h3 : t = "twilio_daily_sip_dialin"
    · exact Or.inr ⟨t, by simp, Or.inl h3⟩
    · by_cases h4 : t = "twilio_daily_sip_dialout"
      · exact Or.inr ⟨t, by simp, Or.inr h4⟩
      · have hstep : (dialStep acc t).2 = acc.2 := by
          unfold dialStep
          by_cases h1 : t = "daily_pstn_dialin"
          · rw [if_pos (by simp [h1])]
          · rw [if_neg (by simp [h1])]
            by_cases h2 : t = "daily_pstn_dialout"
            · rw [if_pos (by simp [h2])]
            · rw [if_neg (by simp [h2]), if_neg (by simp [h3]), if_neg (by simp [h4])]
        rw [List.foldl_cons]
        rcases ih (dialStep acc t) with hl | hr
        · exact Or.inl (by rw [hl, hstep])
        · exact Or.inr (by
            obtain ⟨x, hx, hd⟩ := hr
            exact ⟨x, by simp [hx], hd⟩)

/-- A set first dial-mode means a daily dial identifier is present. -/
lemma deriveDial_fst_mem {ts : List String} {m : String}
    (h : (deriveDialModes ts).1 = some m) :
    ∃ t ∈ ts, t = "daily_pstn_dialin" ∨ t = "daily_pstn_dialout" := by
  rcases deriveDial_fst_aux ts (none, none) with hl | hr
  · unfold deriveDialModes at h
    rw [hl] at h
    simp at h
  · exact hr

/-- A set second dial-mode means a twilio dial identifier is present. -/
lemma deriveDial_snd_mem {ts : List String} {m : String}
    (h : (deriveDialModes ts).2 = some m) :
    ∃ t ∈ ts, t = "twilio_daily_sip_dialin" ∨ t = "twilio_daily_sip_dialout" := by
  rcases deriveDial_snd_aux ts (none, none) with hl | hr
  · unfold deriveDialModes at h
    rw [hl] at h
    simp at h
  · exact hr

/-- The client resolution of a read-back record returns its own client
fields. -/
lemma clientResolve_inputOf {c : ProjectConfig} (g : GoodConfig c) :
    clientResolve (inputOfConfig c) = (c.generate_client, c.client_framework, c.client_server) := by
  rcases g.cf_cases with hcf | hcf | hcf | hcf
  · have ht : ¬ (tS (inputOfConfig c).client_framework = true) := by
      show ¬ (tS c.client_framework = true)
      rw [hcf]
      simp [tS]
    unfold clientResolve
    rw [if_neg ht]
    have hg : c.generate_client = false := by rw [g.gen, hcf]; rfl
    rw [hg]
    rfl
  · have ht : ¬ (tS (inputOfConfig c).client_framework = true) := by
      show ¬ (tS c.client_framework = true)
      rw [hcf]
      simp [tS]
    unfold clientResolve
    rw [if_neg ht]
    have hg : c.generate_client = false := by rw [g.gen, hcf]; rfl
    rw [hg]
    rfl
  · have ht : tS (inputOfConfig c).client_framework = true := by
      show tS c.client_framework = true
      rw [hcf]
      rfl
    unfold clientResolve
    rw [if_pos ht]
    have he : (inputOfConfig c).client_framework = some "react" := hcf
    rw [he]
    have hg : c.generate_client = true := by rw [g.gen, hcf]; rfl
    rw [hg, hcf]
    rfl
  · have ht : tS (inputOfConfig c).client_framework = true := by
      show tS c.client_framework = true
      rw [hcf]
      rfl
    unfold clientResolve
    rw [if_pos ht]
    have he : (inputOfConfig c).client_framework = some "vanilla" := hcf
    rw [he]
    have hg : c.generate_client = true := by rw [g.gen, hcf]; rfl
    rw [hg, hcf, g.cs_vanilla hcf]
    rfl

/-- The daily dial-mode check passes whenever a token with the base-name
prefix is present (or the dial mode is unset). -/
lemma dailyDialErrors_nil {i : RawInput} {ts : List String} (hts : i.transport = some ts)
    (h : tS i.daily_pstn_mode = true → (ts.any fun t => pyStarts t "daily_pstn") = true) :
    dailyDialErrors i = [] := by
  unfold dailyDialErrors
  rw [hts]
  show (if tS i.daily_pstn_mode && !ts.isEmpty && !(ts.contains "daily_pstn") then
      if !(ts.any (fun t => pyStarts t "daily_pstn")) then [msgDailyPstnModeNoTransport] else []
    else []) = []
  cases htm : tS i.daily_pstn_mode with
  | false => rfl
  | true =>
    rw [h htm]
    split
    · rfl
    · rfl

/-- The twilio dial-mode check passes whenever a token with the base-name
prefix is present (or the dial mode is unset). -/
lemma twilioDialErrors_nil {i : RawInput} {ts : List String} (hts : i.transport = some ts)
    (h : tS i.twilio_daily_sip_mode = true → (ts.any fun t => pyStarts t "twilio_daily_sip") = true) :
    twilioDialErrors i = [] := by
  unfold twilioDialErrors
  rw [hts]
  show (if tS i.twilio_daily_sip_mode && !ts.isEmpty && !(ts.contains "twilio_daily_sip") then
      if !(ts.any (fun t => pyStarts t "twilio_daily_sip")) then [msgTwilioSipModeNoTransport] else []
    else []) = []
  cases htm : tS i.twilio_daily_sip_mode with
  | false => rfl
  | true =>
    rw [h htm]
    split
    · rfl
    · rfl

/-- Re-validation: a record satisfying the output invariants, whose client
server is only set when a client framework is set, validates back to
itself when fed in as raw input. -/
lemma revalidate_ok {c : ProjectConfig} (g : GoodConfig c)
    (guard : tS c.client_server = true → tS c.client_framework = true) :
    validate_and_build_config (inputOfConfig c) = .ok c := by
  have hall : ∀ t ∈ c.transports, resolveToken (inputOfConfig c) t = .ok t :=
    fun t ht => resolveToken_of_cat (g.tr_cat t ht)
  have hfm := filterMap_all_ok (inputOfConfig c) c.transports hall
  have htr0 : transportErrors (inputOfConfig c) = [] := by
    unfold transportErrors
    exact hfm.1
  have hres : resolvedTransports (inputOfConfig c) = c.transports := by
    unfold resolvedTransports
    exact hfm.2
  rw [validate_ok_iff]
  constructor
  · rw [errorsAll_eq_nil_iff]
    refine ⟨?_, ?_, ?_, ?_, htr0, ?_, ?_, ?_, ?_, ?_, ?_⟩
    · have hn : tS (inputOfConfig c).name = true := g.name_t
      unfold nameErrors
      rw [hn]
      rfl
    · unfold botTypeErrors
      rcases g.bt with hb | hb
      · have hb2 : (inputOfConfig c).bot_type = some "web" := hb
        rw [hb2]
        rfl
      · have hb2 : (inputOfConfig c).bot_type = some "telephony" := hb
        rw [hb2]
        rfl
    · have hne : c.transports.isEmpty = false := by
        cases hq : c.transports.isEmpty with
        | false => rfl
        | true => exact absurd (List.isEmpty_iff.mp hq) g.tr_ne
      have hl : tL (inputOfConfig c).transport = true := by
        show (!(c.transports.isEmpty)) = true
        rw [hne]
        rfl
      unfold transportPresenceErrors
      rw [hl]
      rfl
    · unfold modeEnumErrors
      rcases g.md with hb | hb
      · have hb2 : (inputOfConfig c).mode = some "cascade" := hb
        rw [hb2]
        rfl
      · have hb2 : (inputOfConfig c).mode = some "realtime" := hb
        rw [hb2]
        rfl
    · have hnone : ∀ t ∈ c.transports, crossCheckMsg (inputOfConfig c) t = none := by
        intro t ht
        unfold crossCheckMsg
        rcases g.bt with hb | hb
        · have hb2 : (inputOfConfig c).bot_type = some "web" := hb
          rw [hb2, g.cross t ht hb]
          rfl
        · have hb2 : (inputOfConfig c).bot_type = some "telephony" := hb
          rw [hb2]
          rfl
      unfold crossTransportErrors
      rw [hres]
      split
      · exact List.filterMap_eq_nil_iff.mpr hnone
      · rfl
    · rcases g.md with hb | hb
      · unfold modeServiceErrors
        have hm : (inputOfConfig c).mode = some "cascade" := hb
        rw [hm, if_pos (by decide)]
        have h1 := @serviceCheck_of_ok c.stt_service (_get_valid_values ServiceRegistry.STT_SERVICES)
          msgSttRequired msgUnknownStt (g.stt_ok hb).1 (g.stt_ok hb).2
        have h2 := @serviceCheck_of_ok c.llm_service (_get_valid_values ServiceRegistry.LLM_SERVICES)
          msgLlmRequired msgUnknownLlm (g.llm_ok hb).1 (g.llm_ok hb).2
        have h3 := @serviceCheck_of_ok c.tts_service (_get_valid_values ServiceRegistry.TTS_SERVICES)
          msgTtsRequired msgUnknownTts (g.tts_ok hb).1 (g.tts_ok hb).2
        have h4 : tS (inputOfConfig c).realtime = false := by
          show tS c.realtime_service = false
          rw [g.rt_none hb]
          rfl
        show serviceCheck c.stt_service (_get_valid_values ServiceRegistry.STT_SERVICES) msgSttRequired msgUnknownStt
            ++ serviceCheck c.llm_service (_get_valid_values ServiceRegistry.LLM_SERVICES) msgLlmRequired msgUnknownLlm
            ++ serviceCheck c.tts_service (_get_valid_values ServiceRegistry.TTS_SERVICES) msgTtsRequired msgUnknownTts
            ++ (if tS (inputOfConfig c).realtime = true then [msgRealtimeInCascade] else []) = []
        rw [h1, h2, h3, h4]
        rfl
      · unfold modeServiceErrors
        have hm : (inputOfConfig c).mode = some "realtime" := hb
        rw [hm, if_neg (by decide), if_pos (by decide)]
        have h1 := @serviceCheck_of_ok c.realtime_service (_get_valid_values ServiceRegistry.REALTIME_SERVICES)
          msgRealtimeRequired msgUnknownRealtime (g.rt_ok hb).1 (g.rt_ok hb).2
        have h2 : tS (inputOfConfig c).stt = false := by
          show tS c.stt_service = false
          rw [(g.cascade_none hb).1]
          rfl
        have h3 : tS (inputOfConfig c).llm = false := by
          show tS c.llm_service = false
          rw [(g.cascade_none hb).2.1]
          rfl
        have h4 : tS (inputOfConfig c).tts = false := by
          show tS c.tts_service = false
          rw [(g.cascade_none hb).2.2]
          rfl
        show serviceCheck c.realtime_service (_get_valid_values ServiceRegistry.REALTIME_SERVICES) msgRealtimeRequired msgUnknownRealtime
            ++ (if tS (inputOfConfig c).stt = true then [msgSttInRealtime] else [])
            ++ (if tS (inputOfConfig c).llm = true then [msgLlmInRealtime] else [])
            ++ (if tS (inputOfConfig c).tts = true then [msgTtsInRealtime] else []) = []
        rw [h1, h2, h3, h4]
        rfl
    · unfold videoErrors
      cases hv : tS c.video_service with
      | false =>
        have hv2 : tS (inputOfConfig c).video = false := hv
        rw [hv2]
        rfl
      | true =>
        have hv2 : tS (inputOfConfig c).video = true := hv
        rw [hv2, if_pos rfl]
        rcases hov : c.video_service with _ | v
        · rw [hov] at hv; simp [tS] at hv
        · have he : (inputOfConfig c).video = some v := hov
          rw [he]
          have hcv : (_get_valid_values ServiceRegistry.VIDEO_SERVICES).contains v = true := by
            have hx := (g.vid_ok hv).1
            rw [hov] at hx
            simpa using hx
          have hb2 : ((inputOfConfig c).bot_type == some "telephony") = false := by
            show (c.bot_type == some "telephony") = false
            rcases g.bt with hb | hb
            · rw [hb]; rfl
            · exact absurd hb (g.vid_ok hv).2
          rw [hb2]
          show (if (!(_get_valid_values ServiceRegistry.VIDEO_SERVICES).contains v) = true
              then [msgUnknownVideo v] else []) ++ (if false = true then [msgVideoOnlyWeb] else []) = []
          rw [hcv]
          rfl
    · unfold clientErrors
      rcases g.cf_cases with hcf | hcf | hcf | hcf
      · have ht : tS (inputOfConfig c).client_framework = false := by
          show tS c.client_framework = false
          rw [hcf]
          rfl
        have hcs : tS (inputOfConfig c).client_server = false := by
          show tS c.client_server = false
          cases hq : tS c.client_server with
          | false => rfl
          | true =>
            have hx := guard hq
            rw [hcf] at hx
            simp [tS] at hx
        rw [ht, hcs]
        rfl
      · have ht : tS (inputOfConfig c).client_framework = false := by
          show tS c.client_framework = false
          rw [hcf]
          rfl
        have hcs : tS (inputOfConfig c).client_server = false := by
          show tS c.client_server = false
          cases hq : tS c.client_server with
          | false => rfl
          | true =>
            have hx := guard hq
            rw [hcf] at hx
            simp [tS] at hx
        rw [ht, hcs]
        rfl
      · have ht : tS (inputOfConfig c).client_framework = true := by
          show tS c.client_framework = true
          rw [hcf]
          rfl
        have he : (inputOfConfig c).client_framework = some "react" := hcf
        have hb2 : ((inputOfConfig c).bot_type == some "telephony") = false := by
          show (c.bot_type == some "telephony") = false
          rcases g.bt with hb | hb
          · rw [hb]; rfl
          · exact absurd hb (g.cf_web (Or.inl hcf))
        have hsrv : (match (inputOfConfig c).client_server with
            | some cs => if (cs != "" && cs != "vite" && cs != "nextjs") = true
                then [msgClientServerInvalid cs] else []
            | none => ([] : List String)) = [] := by
          rcases hsv : c.client_server with _ | cs
          · have hx : (inputOfConfig c).client_server = none := hsv
            rw [hx]
          · have hx : (inputOfConfig c).client_server = some cs := hsv
            rw [hx]
            show (if (cs != "" && cs != "vite" && cs != "nextjs") = true
                then [msgClientServerInvalid cs] else []) = []
            cases hq : (cs == "") with
            | true =>
              have hz : (cs != "") = false := by
                show (!(cs == "")) = false
                rw [hq]
                rfl
              rw [hz]
              rfl
            | false =>
              have hcs2 : tS c.client_server = true := by
                rw [hsv]
                show (!(cs == "")) = true
                rw [hq]
                rfl
              rcases g.cs_react hcf hcs2 with hv | hv
              · have hveq : cs = "vite" := by
                  rw [hsv] at hv
                  exact Option.some.inj hv
                subst hveq
                rfl
              · have hveq : cs = "nextjs" := by
                  rw [hsv] at hv
                  exact Option.some.inj hv
                subst hveq
                rfl
        rw [ht, he, if_pos rfl]
        show ((if ("react" != "react" && "react" != "vanilla" && "react" != "none") = true
              then [msgClientFrameworkInvalid "react"] else [])
            ++ (if ((inputOfConfig c).bot_type == some "telephony") = true
              then [msgClientFrameworkOnlyWeb] else [])
            ++ (if ("react" == "react") = true then (match (inputOfConfig c).client_server with
                | some cs => if (cs != "" && cs != "vite" && cs != "nextjs") = true
                    then [msgClientServerInvalid cs] else []
                | none => ([] : List String)) else []))
          ++ (if (tS (inputOfConfig c).client_server && !true) = true
              then [msgClientServerNeedsFramework] else []) = []
        rw [hb2, hsrv]
        simp
      · have ht : tS (inputOfConfig c).client_framework = true := by
          show tS c.client_framework = true
          rw [hcf]
          rfl
        have he : (inputOfConfig c).client_framework = some "vanilla" := hcf
        have hb2 : ((inputOfConfig c).bot_type == some "telephony") = false := by
          show (c.bot_type == some "telephony") = false
          rcases g.bt with hb | hb
          · rw [hb]; rfl
          · exact absurd hb (g.cf_web (Or.inr hcf))
        rw [ht, he, if_pos rfl]
        show ((if ("vanilla" != "react" && "vanilla" != "vanilla" && "vanilla" != "none") = true
              then [msgClientFrameworkInvalid "vanilla"] else [])
            ++ (if ((inputOfConfig c).bot_type == some "telephony") = true
              then [msgClientFrameworkOnlyWeb] else [])
            ++ (if ("vanilla" == "react") = true then (match (inputOfConfig c).client_server with
                | some cs => if (cs != "" && cs != "vite" && cs != "nextjs") = true
                    then [msgClientServerInvalid cs] else []
                | none => ([] : List String)) else []))
          ++ (if (tS (inputOfConfig c).client_server && !true) = true
              then [msgClientServerNeedsFramework] else []) = []
        rw [hb2]
        simp
    · unfold crossFieldErrors
      have hvi : ((inputOfConfig c).video_input && ((inputOfConfig c).bot_type == some "telephony")) = false := by
        show (c.video_input && (c.bot_type == some "telephony")) = false
        rcases g.bt with hb | hb
        · rw [hb]
          simp
        · rw [g.vi_tel hb]
          rfl
      have hvo : ((inputOfConfig c).video_output && ((inputOfConfig c).bot_type == some "telephony")) = false := by
        show (c.video_output && (c.bot_type == some "telephony")) = false
        rcases g.bt with hb | hb
        · rw [hb]
          simp
        · rw [g.vo_tel hb]
          rfl
      have hkr : ((inputOfConfig c).enable_krisp && !(inputOfConfig c).deploy_to_cloud) = false := by
        show (c.enable_krisp && !c.deploy_to_cloud) = false
        cases hk : c.enable_krisp with
        | false => rfl
        | true =>
          rw [g.krisp hk]
          rfl
      rw [hvi, hvo, hkr]
      rfl
    · unfold dialModeErrors
      rw [List.append_eq_nil]
      constructor
      · refine @dailyDialErrors_nil (inputOfConfig c) c.transports rfl ?_
        intro htm
        have htm2 : tS c.daily_pstn_mode = true := htm
        rcases hdm : c.daily_pstn_mode with _ | m
        · rw [hdm] at htm2; simp [tS] at htm2
        · have hd1 : (deriveDialModes c.transports).1 = some m := by
            rw [← g.dial1]
            exact hdm
          obtain ⟨t, htmem, hd⟩ := deriveDial_fst_mem hd1
          exact List.any_eq_true.mpr ⟨t, htmem, by rcases hd with h | h <;> rw [h] <;> rfl⟩
      · refine @twilioDialErrors_nil (inputOfConfig c) c.transports rfl ?_
        intro htm
        have htm2 : tS c.twilio_daily_sip_mode = true := htm
        rcases hdm : c.twilio_daily_sip_mode with _ | m
        · rw [hdm] at htm2; simp [tS] at htm2
        · have hd1 : (deriveDialModes c.transports).2 = some m := by
            rw [← g.dial2]
            exact hdm
          obtain ⟨t, htmem, hd⟩ := deriveDial_snd_mem hd1
          exact List.any_eq_true.mpr ⟨t, htmem, by rcases hd with h | h <;> rw [h] <;> rfl⟩
  · apply ProjectConfig.ext
    · rfl
    · rfl
    · exact hres.symm
    · rfl
    · rcases g.md with hb | hb
      · show c.stt_service = (if ((inputOfConfig c).mode == some "cascade") = true then (inputOfConfig c).stt else none)
        have hm : (inputOfConfig c).mode = some "cascade" := hb
        rw [hm, if_pos (by decide)]
        rfl
      · show c.stt_service = (if ((inputOfConfig c).mode == some "cascade") = true then (inputOfConfig c).stt else none)
        have hm : (inputOfConfig c).mode = some "realtime" := hb
        rw [hm, if_neg (by decide)]
        exact (g.cascade_none hb).1
    · rcases g.md with hb | hb
      · show c.llm_service = (if ((inputOfConfig c).mode == some "cascade") = true then (inputOfConfig c).llm else none)
        have hm : (inputOfConfig c).mode = some "cascade" := hb
        rw [hm, if_pos (by decide)]
        rfl
      · show c.llm_service = (if ((inputOfConfig c).mode == some "cascade") = true then (inputOfConfig c).llm else none)
        have hm : (inputOfConfig c).mode = some "realtime" := hb
        rw [hm, if_neg (by decide)]
        exact (g.cascade_none hb).2.1
    · rcases g.md with hb | hb
      · show c.tts_service = (if ((inputOfConfig c).mode == some "cascade") = true then (inputOfConfig c).tts else none)
        have hm : (inputOfConfig c).mode = some "cascade" := hb
        rw [hm, if_pos (by decide)]
        rfl
      · show c.tts_service = (if ((inputOfConfig c).mode == some "cascade") = true then (inputOfConfig c).tts else none)
        have hm : (inputOfConfig c).mode = some "realtime" := hb
        rw [hm, if_neg (by decide)]
        exact (g.cascade_none hb).2.2
    · rcases g.md with hb | hb
      · show c.realtime_service = (if ((inputOfConfig c).mode == some "realtime") = true then (inputOfConfig c).realtime else none)
        have hm : (inputOfConfig c).mode = some "cascade" := hb
        rw [hm, if_neg (by decide)]
        exact g.rt_none hb
      · show c.realtime_service = (if ((inputOfConfig c).mode == some "realtime") = true then (inputOfConfig c).realtime else none)
        have hm : (inputOfConfig c).mode = some "realtime" := hb
        rw [hm, if_pos (by decide)]
        rfl
    · rfl
    · show c.generate_client = (clientResolve (inputOfConfig c)).1
      rw [clientResolve_inputOf g]
    · show c.client_framework = (clientResolve (inputOfConfig c)).2.1
      rw [clientResolve_inputOf g]
    · show c.client_server = (clientResolve (inputOfConfig c)).2.2
      rw [clientResolve_inputOf g]
    · show c.daily_pstn_mode = (deriveDialModes (resolvedTransports (inputOfConfig c))).1
      rw [hres]
      exact g.dial1
    · show c.twilio_daily_sip_mode = (deriveDialModes (resolvedTransports (inputOfConfig c))).2
      rw [hres]
      exact g.dial2
    · rfl
    · show c.video_output = (if tS (inputOfConfig c).video = true then true else (inputOfConfig c).video_output)
      cases hv : tS c.video_service with
      | true =>
        have hv2 : tS (inputOfConfig c).video = true := hv
        rw [hv2, if_pos rfl]
        exact g.vid_force hv
      | false =>
        have hv2 : tS (inputOfConfig c).video = false := hv
        rw [hv2]
        rfl
    · rfl
    · rfl
    · rfl
    · rfl
    · rfl

/-- Reading an optional string field back from its serialized value
returns it unchanged. -/
lemma getStr_jsonOfOpt (d : List (String × JVal)) (k : String) (o : Option String)
    (h : jGet d k = some (jsonOfOpt o)) : getStr d k = o := by
  unfold getStr
  rw [h]
  cases o <;> rfl

/-- The Python or-fallback skips an absent first operand. -/
lemma pyOrS_none (b : Option String) : pyOrS none b = b := rfl

/-- Parsing the serialized form of a record with a non-empty transport list
reads back exactly the fields of the record itself. -/
lemma reparse_eq {c : ProjectConfig} (hne : c.transports ≠ []) :
    reparse c = inputOfConfig c := by
  have hie : c.transports.isEmpty = false := by
    cases hq : c.transports.isEmpty with
    | false => rfl
    | true => exact absurd (List.isEmpty_iff.mp hq) hne
  apply RawInput.ext
  · show pyOrS (getStr (config_to_json c) "name") (getStr (config_to_json c) "project_name") = c.project_name
    rw [show getStr (config_to_json c) "name" = none from rfl, pyOrS_none]
    exact getStr_jsonOfOpt _ _ _ rfl
  · show getStr (config_to_json c) "bot_type" = c.bot_type
    exact getStr_jsonOfOpt _ _ _ rfl
  · show pyOrL (getArr (config_to_json c) "transports") (getArr (config_to_json c) "transport") = some c.transports
    rw [show getArr (config_to_json c) "transports" = some c.transports from rfl]
    unfold pyOrL
    rw [show tL (some c.transports) = !(c.transports.isEmpty) from rfl, hie]
    rfl
  · show getStr (config_to_json c) "mode" = c.mode
    exact getStr_jsonOfOpt _ _ _ rfl
  · show pyOrS (getStr (config_to_json c) "stt") (getStr (config_to_json c) "stt_service") = c.stt_service
    rw [show getStr (config_to_json c) "stt" = none from rfl, pyOrS_none]
    exact getStr_jsonOfOpt _ _ _ rfl
  · show pyOrS (getStr (config_to_json c) "llm") (getStr (config_to_json c) "llm_service") = c.llm_service
    rw [show getStr (config_to_json c) "llm" = none from rfl, pyOrS_none]
    exact getStr_jsonOfOpt _ _ _ rfl
  · show pyOrS (getStr (config_to_json c) "tts") (getStr (config_to_json c) "tts_service") = c.tts_service
    rw [show getStr (config_to_json c) "tts" = none from rfl, pyOrS_none]
    exact getStr_jsonOfOpt _ _ _ rfl
  · show pyOrS (getStr (config_to_json c) "realtime") (getStr (config_to_json c) "realtime_service") = c.realtime_service
    rw [show getStr (config_to_json c) "realtime" = none from rfl, pyOrS_none]
    exact getStr_jsonOfOpt _ _ _ rfl
  · show pyOrS (getStr (config_to_json c) "video") (getStr (config_to_json c) "video_service") = c.video_service
    rw [show getStr (config_to_json c) "video" = none from rfl, pyOrS_none]
    exact getStr_jsonOfOpt _ _ _ rfl
  · show getStr (config_to_json c) "client_framework" = c.client_framework
    exact getStr_jsonOfOpt _ _ _ rfl
  · show getStr (config_to_json c) "client_server" = c.client_server
    exact getStr_jsonOfOpt _ _ _ rfl
  · show getStr (config_to_json c) "daily_pstn_mode" = c.daily_pstn_mode
    exact getStr_jsonOfOpt _ _ _ rfl
  · show getStr (config_to_json c) "twilio_daily_sip_mode" = c.twilio_daily_sip_mode
    exact getStr_jsonOfOpt _ _ _ rfl
  · rfl
  · rfl
  · rfl
  · rfl
  · rfl
  · rfl
  · rfl

/-- A non-daily identifier leaves the first dial-mode slot unchanged. -/
lemma dialStep_fst_neutral (acc : Option String × Option String) (t : String)
    (h1 : t ≠ "daily_pstn_dialin") (h2 : t ≠ "daily_pstn_dialout") :
    (dialStep acc t).1 = acc.1 := by
  unfold dialStep
  rw [if_neg (by simp [h1]), if_neg (by simp [h2])]
  by_cases h3 : t = "twilio_daily_sip_dialin"
  · rw [if_pos (by simp [h3])]
  · rw [if_neg (by simp [h3])]
    by_cases h4 : t = "twilio_daily_sip_dialout"
    · rw [if_pos (by simp [h4])]
    · rw [if_neg (by simp [h4])]

/-- A non-twilio identifier leaves the second dial-mode slot unchanged. -/
lemma dialStep_snd_neutral (acc : Option String × Option String) (t : String)
    (h3 : t ≠ "twilio_daily_sip_dialin") (h4 : t ≠ "twilio_daily_sip_dialout") :
    (dialStep acc t).2 = acc.2 := by
  unfold dialStep
  by_cases h1 : t = "daily_pstn_dialin"
  · rw [if_pos (by simp [h1])]
  · rw [if_neg (by simp [h1])]
    by_cases h2 : t = "daily_pstn_dialout"
    · rw [if_pos (by simp [h2])]
    · rw [if_neg (by simp [h2]), if_neg (by simp [h3]), if_neg (by simp [h4])]

/-- Scanning a list without daily dial identifiers keeps the first slot. -/
lemma deriveDial_fst_preserved :
    ∀ (l : List String),
      (∀ t ∈ l, t ≠ "daily_pstn_dialin" ∧ t ≠ "daily_pstn_dialout") →
      ∀ acc, (l.foldl dialStep acc).1 = acc.1 := by
  intro l
  induction l with
  | nil => intro _ acc; rfl
  | cons t l ih =>
    intro hall acc
    rw [List.foldl_cons, ih (fun x hx => hall x (by simp [hx])) (dialStep acc t),
      dialStep_fst_neutral acc t (hall t (by simp)).1 (hall t (by simp)).2]

/-- Scanning a list without twilio dial identifiers keeps the second
slot. -/
lemma deriveDial_snd_preserved :
    ∀ (l : List String),
      (∀ t ∈ l, t ≠ "twilio_daily_sip_dialin" ∧ t ≠ "twilio_daily_sip_dialout") →
      ∀ acc, (l.foldl dialStep acc).2 = acc.2 := by
  intro l
  induction l with
  | nil => intro _ acc; rfl
  | cons t l ih =>
    intro hall acc
    rw [List.foldl_cons, ih (fun x hx => hall x (by simp [hx])) (dialStep acc t),
      dialStep_snd_neutral acc t (hall t (by simp)).1 (hall t (by simp)).2]

/-- When the only daily dial identifier occurring in the list is the fixed
value v, the scan derives the dial mode of v. -/
lemma deriveDial_fst_uniform_aux (v md : String)
    (hv : (v = "daily_pstn_dialin" ∧ md = "dial-in") ∨ (v = "daily_pstn_dialout" ∧ md = "dial-out")) :
    ∀ l : List String,
      (∀ t ∈ l, t = v ∨ (t ≠ "daily_pstn_dialin" ∧ t ≠ "daily_pstn_dialout")) →
      v ∈ l → ∀ acc, (l.foldl dialStep acc).1 = some md := by
  intro l
  induction l with
  | nil => intro _ hmem; simp at hmem
  | cons t l ih =>
    intro hall hmem acc
    rw [List.foldl_cons]
    by_cases hin : v ∈ l
    · exact ih (fun x hx => hall x (by simp [hx])) hin (dialStep acc t)
    · have htv : t = v := by
        rcases List.mem_cons.mp hmem with hx | hx
        · exact hx.symm
        · exact absurd hx hin
      have hstep1 : (dialStep acc t).1 = some md := by
        rcases hv with ⟨hveq, hmd⟩ | ⟨hveq, hmd⟩
        · rw [htv, hveq, hmd]; rfl
        · rw [htv, hveq, hmd]; rfl
      have hneut : ∀ x ∈ l, x ≠ "daily_pstn_dialin" ∧ x ≠ "daily_pstn_dialout" := by
        intro x hx
        rcases hall x (by simp [hx]) with hxx | hxx
        · exact absurd (hxx ▸ hx) hin
        · exact hxx
      rw [deriveDial_fst_preserved l hneut (dialStep acc t), hstep1]

/-- When the only twilio dial identifier occurring in the list is the
fixed value v, the scan derives the dial mode of v. -/
lemma deriveDial_snd_uniform_aux (v md : String)
    (hv : (v = "twilio_daily_sip_dialin" ∧ md = "dial-in") ∨ (v = "twilio_daily_sip_dialout" ∧ md = "dial-out")) :
    ∀ l : List String,
      (∀ t ∈ l, t = v ∨ (t ≠ "twilio_daily_sip_dialin" ∧ t ≠ "twilio_daily_sip_dialout")) →
      v ∈ l → ∀ acc, (l.foldl dialStep acc).2 = some md := by
  intro l
  induction l with
  | nil => intro _ hmem; simp at hmem
  | cons t l ih =>
    intro hall hmem acc
    rw [List.foldl_cons]
    by_cases hin : v ∈ l
    · exact ih (fun x hx => hall x (by simp [hx])) hin (dialStep acc t)
    · have htv : t = v := by
        rcases List.mem_cons.mp hmem with hx | hx
        · exact hx.symm
        · exact absurd hx hin
      have hstep1 : (dialStep acc t).2 = some md := by
        rcases hv with ⟨hveq, hmd⟩ | ⟨hveq, hmd⟩
        · rw [htv, hveq, hmd]; rfl
        · rw [htv, hveq, hmd]; rfl
      have hneut : ∀ x ∈ l, x ≠ "twilio_daily_sip_dialin" ∧ x ≠ "twilio_daily_sip_dialout" := by
        intro x hx
        rcases hall x (by simp [hx]) with hxx | hxx
        · exact absurd (hxx ▸ hx) hin
        · exact hxx
      rw [deriveDial_snd_preserved l hneut (dialStep acc t), hstep1]

/-- A truthy optional string is present. -/
lemma tS_ne_none {o : Option String} (h : tS o = true) : o ≠ none := by
  intro hn
  rw [hn] at h
  simp [tS] at h

/-- C1: validate_and_build_config accumulates instead of short-circuiting:
on every input it either returns the resolved record, exactly when no rule
instance is violated, or raises the complete ordered list of violation
messages (the concatenation of every rule block, each violated instance
contributing its one message), never a proper prefix of it. -/
theorem C1_error_accumulation (i : RawInput) :
    (errorsAll i = [] ∧ validate_and_build_config i = .ok (buildConfig i))
    ∨ (errorsAll i ≠ [] ∧ validate_and_build_config i = .error (errorsAll i)) := by
  by_cases h : errorsAll i = []
  · left
    refine ⟨h, ?_⟩
    rw [validate_eq, if_pos h]
  · right
    refine ⟨h, ?_⟩
    rw [validate_eq, if_neg h]

/-- C2: on every successful validation, cascade mode populates the three
cascade services and leaves the realtime service unset, and realtime mode
does the exact inverse. -/
theorem C2_mode_service_population (i : RawInput) (c : ProjectConfig)
    (h : validate_and_build_config i = .ok c) :
    (c.mode = some "cascade" →
      c.stt_service ≠ none ∧ c.llm_service ≠ none ∧ c.tts_service ≠ none
        ∧ c.realtime_service = none)
    ∧ (c.mode = some "realtime" →
      c.realtime_service ≠ none ∧ c.stt_service = none ∧ c.llm_service = none
        ∧ c.tts_service = none) := by
  have g := goodConfig_of_ok h
  constructor
  · intro hm
    exact ⟨tS_ne_none (g.stt_ok hm).1, tS_ne_none (g.llm_ok hm).1,
      tS_ne_none (g.tts_ok hm).1, g.rt_none hm⟩
  · intro hm
    exact ⟨tS_ne_none (g.rt_ok hm).1, (g.cascade_none hm).1,
      (g.cascade_none hm).2.1, (g.cascade_none hm).2.2⟩

/-- Witness for C2 at the concrete end-to-end cascade input. -/
theorem C2_mode_service_population_witness :
    cascadeOutput.stt_service ≠ none ∧ cascadeOutput.llm_service ≠ none
    ∧ cascadeOutput.tts_service ≠ none ∧ cascadeOutput.realtime_service = none :=
  (C2_mode_service_population cascadeInput cascadeOutput rfl).1 rfl

/-- C6: the end-to-end cascade scenario validates successfully; the output
keeps the single daily transport and the defaulted deploy_to_cloud = true.
The claimed smart_turn = true default has no counterpart in the validator:
the function neither accepts a smart_turn argument (its caller in
commands/init.py and its tests pass one) nor sets one on the record. -/
theorem C6_end_to_end_cascade :
    validate_and_build_config cascadeInput = .ok cascadeOutput
    ∧ cascadeOutput.transports = ["daily"]
    ∧ cascadeOutput.deploy_to_cloud = true :=
  ⟨rfl, rfl, rfl⟩

/-- C8: the all-defaults call fails with exactly the four required-field
messages, and a cascade call without stt, llm and tts fails with exactly
those three messages. -/
theorem C8_required_field_messages :
    validate_and_build_config emptyInput =
      .error [msgNameRequired, msgBotTypeRequired, msgTransportRequired, msgModeRequired]
    ∧ validate_and_build_config cascadeNoServicesInput =
      .error [msgSttRequired, msgLlmRequired, msgTtsRequired] :=
  ⟨rfl, rfl⟩

/-- C9: whenever a video service is selected, every successful validation
forces video_output = true in the output, regardless of the raw
video_output input. -/
theorem C9_video_forces_output (i : RawInput) (c : ProjectConfig)
    (h : validate_and_build_config i = .ok c)
    (hv : tS c.video_service = true) : c.video_output = true :=
  (goodConfig_of_ok h).vid_force hv

/-- Witness for C9: the concrete input explicitly passes
video_output = false and still receives video_output = true. -/
theorem C9_video_forces_output_witness :
    videoInput.video_output = false ∧ videoOutputCfg.video_output = true :=
  ⟨rfl, C9_video_forces_output videoInput videoOutputCfg rfl rfl⟩

/-- C4: a web bot whose resolved transports contain a telephony-catalog
identifier always fails, with the message naming that transport as a
telephony transport; the converse combination (telephony bot with a
web-catalog transport) contributes no cross-check error. -/
theorem C4_transport_bot_type_crosscheck :
    (∀ (i : RawInput) (t : String), i.bot_type = some "web" →
        t ∈ resolvedTransports i → telephony_values.contains t = true →
        ∃ es, validate_and_build_config i = .error es ∧ msgTelephonyTransportOnWeb t ∈ es)
    ∧ (∀ i : RawInput, i.bot_type = some "telephony" → crossTransportErrors i = []) := by
  constructor
  · intro i t hw hmem hcon
    have hmsg : msgTelephonyTransportOnWeb t ∈ crossTransportErrors i := by
      unfold crossTransportErrors
      have hg : (tS i.bot_type && !(resolvedTransports i).isEmpty) = true := by
        rw [hw]
        have hne : (resolvedTransports i).isEmpty = false := by
          cases hq : (resolvedTransports i).isEmpty with
          | false => rfl
          | true =>
            rw [List.isEmpty_iff] at hq
            rw [hq] at hmem
            simp at hmem
        rw [hne]
        rfl
      rw [if_pos hg]
      refine List.mem_filterMap.mpr ⟨t, hmem, ?_⟩
      unfold crossCheckMsg
      rw [hw, hcon]
      rfl
    have hmem2 : msgTelephonyTransportOnWeb t ∈ errorsAll i := by
      unfold errorsAll
      simp only [List.mem_append]
      exact Or.inl (Or.inl (Or.inl (Or.inl (Or.inl (Or.inr hmsg)))))
    have hne : errorsAll i ≠ [] := by
      intro h0
      rw [h0] at hmem2
      simp at hmem2
    exact ⟨errorsAll i, by rw [validate_eq, if_neg hne], hmem2⟩
  · intro i hb
    unfold crossTransportErrors
    split
    · apply List.filterMap_eq_nil_iff.mpr
      intro t _
      unfold crossCheckMsg
      rw [hb]
      rfl
    · rfl

/-- Witness for C4: the web bot with the twilio transport fails with the
telephony-transport message, and the telephony bot pairing telnyx with
smallwebrtc gets no cross-check error. -/
theorem C4_transport_bot_type_crosscheck_witness :
    (∃ es, validate_and_build_config webTelInput = .error es
        ∧ msgTelephonyTransportOnWeb "twilio" ∈ es)
    ∧ crossTransportErrors telWebInput = [] :=
  ⟨C4_transport_bot_type_crosscheck.1 webTelInput "twilio" rfl (by decide) (by decide),
   C4_transport_bot_type_crosscheck.2 telWebInput rfl⟩

/-- C7 as stated is false: with transport daily_pstn and the invalid dial
mode sideways, no resolved transport shares the daily_pstn base name, yet
validation fails with only the invalid-dial-mode message and without the
dial-mode-without-matching-transport message. -/
theorem C7_counterexample :
    validate_and_build_config badDialInput = .error [msgDailyPstnModeInvalid "sideways"]
    ∧ resolvedTransports badDialInput = []
    ∧ msgDailyPstnModeNoTransport ∉ [msgDailyPstnModeInvalid "sideways"] :=
  ⟨rfl, rfl, by decide⟩

/-- The daily dial-mode check fires with its message when the transport
list is non-empty and no input token has the base name as a prefix. -/
lemma dailyDial_fires {i : RawInput} {ts : List String}
    (hts : i.transport = some ts) (hne : ts ≠ [])
    (hdm : tS i.daily_pstn_mode = true)
    (hnp : ∀ t ∈ ts, pyStarts t "daily_pstn" = false) :
    dailyDialErrors i = [msgDailyPstnModeNoTransport] := by
  unfold dailyDialErrors
  rw [hts]
  show (if tS i.daily_pstn_mode && !ts.isEmpty && !(ts.contains "daily_pstn") then
      if !(ts.any (fun t => pyStarts t "daily_pstn")) then [msgDailyPstnModeNoTransport] else []
    else []) = [msgDailyPstnModeNoTransport]
  have hie : ts.isEmpty = false := by
    cases hq : ts.isEmpty with
    | false => rfl
    | true => exact absurd (List.isEmpty_iff.mp hq) hne
  have hcon : ts.contains "daily_pstn" = false := by
    cases hq : ts.contains "daily_pstn" with
    | false => rfl
    | true =>
      have hm : "daily_pstn" ∈ ts := by simpa using hq
      exact absurd (hnp _ hm) (by decide)
  have hany : (ts.any fun t => pyStarts t "daily_pstn") = false := by
    cases hq : ts.any fun t => pyStarts t "daily_pstn" with
    | false => rfl
    | true =>
      obtain ⟨t, htm, hp⟩ := List.any_eq_true.mp hq
      rw [hnp t htm] at hp
      simp at hp
  rw [hdm, hie, hcon, hany]
  rfl

/-- The twilio dial-mode check fires with its message when the transport
list is non-empty and no input token has the base name as a prefix. -/
lemma twilioDial_fires {i : RawInput} {ts : List String}
    (hts : i.transport = some ts) (hne : ts ≠ [])
    (hdm : tS i.twilio_daily_sip_mode = true)
    (hnp : ∀ t ∈ ts, pyStarts t "twilio_daily_sip" = false) :
    twilioDialErrors i = [msgTwilioSipModeNoTransport] := by
  unfold twilioDialErrors
  rw [hts]
  show (if tS i.twilio_daily_sip_mode && !ts.isEmpty && !(ts.contains "twilio_daily_sip") then
      if !(ts.any (fun t => pyStarts t "twilio_daily_sip")) then [msgTwilioSipModeNoTransport] else []
    else []) = [msgTwilioSipModeNoTransport]
  have hie : ts.isEmpty = false := by
    cases hq : ts.isEmpty with
    | false => rfl
    | true => exact absurd (List.isEmpty_iff.mp hq) hne
  have hcon : ts.contains "twilio_daily_sip" = false := by
    cases hq : ts.contains "twilio_daily_sip" with
    | false => rfl
    | true =>
      have hm : "twilio_daily_sip" ∈ ts := by simpa using hq
      exact absurd (hnp _ hm) (by decide)
  have hany : (ts.any fun t => pyStarts t "twilio_daily_sip") = false := by
    cases hq : ts.any fun t => pyStarts t "twilio_daily_sip" with
    | false => rfl
    | true =>
      obtain ⟨t, htm, hp⟩ := List.any_eq_true.mp hq
      rw [hnp t htm] at hp
      simp at hp
  rw [hdm, hie, hcon, hany]
  rfl

/-- C7 amended: the dial-mode-without-transport check scans the input
transport list by base-name prefix.  A supplied dial mode with a non-empty
transport list in which no token has the base name as a prefix makes
validation fail with the dial-mode-without-matching-transport message; any
input token sharing the prefix, even one that fails to resolve, and an
absent transport list suppress that message. -/
theorem C7_dial_mode_without_transport_amended :
    (∀ (i : RawInput) (ts : List String), i.transport = some ts → ts ≠ [] →
        tS i.daily_pstn_mode = true →
        (∀ t ∈ ts, pyStarts t "daily_pstn" = false) →
        ∃ es, validate_and_build_config i = .error es ∧ msgDailyPstnModeNoTransport ∈ es)
    ∧ (∀ (i : RawInput) (ts : List String), i.transport = some ts →
        (∃ t ∈ ts, pyStarts t "daily_pstn" = true) → dailyDialErrors i = [])
    ∧ (∀ i : RawInput, i.transport = none → dailyDialErrors i = [])
    ∧ (∀ (i : RawInput) (ts : List String), i.transport = some ts → ts ≠ [] →
        tS i.twilio_daily_sip_mode = true →
        (∀ t ∈ ts, pyStarts t "twilio_daily_sip" = false) →
        ∃ es, validate_and_build_config i = .error es ∧ msgTwilioSipModeNoTransport ∈ es)
    ∧ (∀ (i : RawInput) (ts : List String), i.transport = some ts →
        (∃ t ∈ ts, pyStarts t "twilio_daily_sip" = true) → twilioDialErrors i = [])
    ∧ (∀ i : RawInput, i.transport = none → twilioDialErrors i = []) := by
  refine ⟨?_, ?_, ?_, ?_, ?_, ?_⟩
  · intro i ts hts hne hdm hnp
    have hmsg : msgDailyPstnModeNoTransport ∈ dialModeErrors i := by
      unfold dialModeErrors
      rw [dailyDial_fires hts hne hdm hnp]
      simp
    have hmem2 : msgDailyPstnModeNoTransport ∈ errorsAll i := by
      unfold errorsAll
      simp only [List.mem_append]
      exact Or.inr hmsg
    have hne2 : errorsAll i ≠ [] := by
      intro h0
      rw [h0] at hmem2
      simp at hmem2
    exact ⟨errorsAll i, by rw [validate_eq, if_neg hne2], hmem2⟩
  · intro i ts hts hex
    exact dailyDialErrors_nil hts (fun _ => List.any_eq_true.mpr hex)
  · intro i hn
    unfold dailyDialErrors
    rw [hn]
  · intro i ts hts hne hdm hnp
    have hmsg : msgTwilioSipModeNoTransport ∈ dialModeErrors i := by
      unfold dialModeErrors
      rw [twilioDial_fires hts hne hdm hnp]
      simp
    have hmem2 : msgTwilioSipModeNoTransport ∈ errorsAll i := by
      unfold errorsAll
      simp only [List.mem_append]
      exact Or.inr hmsg
    have hne2 : errorsAll i ≠ [] := by
      intro h0
      rw [h0] at hmem2
      simp at hmem2
    exact ⟨errorsAll i, by rw [validate_eq, if_neg hne2], hmem2⟩
  · intro i ts hts hex
    exact twilioDialErrors_nil hts (fun _ => List.any_eq_true.mpr hex)
  · intro i hn
    unfold twilioDialErrors
    rw [hn]

/-- Witness for the amended C7: a stray daily dial mode with the single
unrelated daily transport fails carrying the
dial-mode-without-matching-transport message. -/
theorem C7_dial_mode_without_transport_witness :
    ∃ es, validate_and_build_config strayDialInput = .error es
      ∧ msgDailyPstnModeNoTransport ∈ es :=
  C7_dial_mode_without_transport_amended.1 strayDialInput ["daily"] rfl (by decide) rfl (by decide)

/-- C10: with client_framework = none, any non-empty client_server passes
untouched: the client block validates without ever checking the server
value (it stays empty for every replacement server string), and the output
normalizes the framework to absent, marks no client generation, and
retains the supplied server string. -/
theorem C10_client_none_retains_server (i : RawInput) (s : String) (c : ProjectConfig)
    (hcf : i.client_framework = some "none") (hcs : i.client_server = some s) (_hs : s ≠ "")
    (h : validate_and_build_config i = .ok c) :
    c.client_framework = none ∧ c.generate_client = false ∧ c.client_server = some s
    ∧ (∀ s2 : String, clientErrors { i with client_server := some s2 } = []) := by
  have hok := h
  rw [validate_ok_iff] at hok
  obtain ⟨hnil, hceq⟩ := hok
  rw [errorsAll_eq_nil_iff] at hnil
  have hcli : clientErrors i = [] := hnil.2.2.2.2.2.2.2.2.1
  have hbtne : i.bot_type ≠ some "telephony" := by
    rcases client_nil hcli with ⟨hf, _⟩ | ⟨cf, hcfEq, _, _, hb, _⟩
    · rw [hcf] at hf
      simp [tS] at hf
    · exact hb
  have hcr : clientResolve i = (false, none, i.client_server) := by
    unfold clientResolve
    rw [hcf]
    rfl
  refine ⟨?_, ?_, ?_, ?_⟩
  · rw [hceq]
    show (clientResolve i).2.1 = none
    rw [hcr]
  · rw [hceq]
    show (clientResolve i).1 = false
    rw [hcr]
  · rw [hceq]
    show (clientResolve i).2.2 = some s
    rw [hcr]
    exact hcs
  · intro s2
    have hbne : (i.bot_type == some "telephony") = false := by
      cases hq : (i.bot_type == some "telephony") with
      | false => rfl
      | true => exact absurd (by simpa using hq) hbtne
    simp [clientErrors, hcf, hbne, tS]

/-- Witness for C10 at the declined-client input, including a replacement
server value that belongs to no allowed set. -/
theorem C10_client_none_retains_server_witness :
    clientNoneOutput.client_framework = none ∧ clientNoneOutput.generate_client = false
    ∧ clientNoneOutput.client_server = some "vite"
    ∧ clientErrors { clientNoneInput with client_server := some "not-a-server" } = [] := by
  have hx := C10_client_none_retains_server clientNoneInput "vite" clientNoneOutput rfl rfl
    (by decide) rfl
  exact ⟨hx.1, hx.2.1, hx.2.2.1, hx.2.2.2 "not-a-server"⟩

/-- C5 as stated is false: the declined-client record validates, but
serializing it and re-validating the recognized keys fails, because the
retained client_server reads back without a client_framework. -/
theorem C5_counterexample :
    validate_and_build_config clientNoneInput = .ok clientNoneOutput
    ∧ validate_and_build_config (reparse clientNoneOutput) = .error [msgClientServerNeedsFramework] :=
  ⟨rfl, rfl⟩

/-- C5 amended: for every successfully constructed record that does not
carry a non-empty client_server with an absent-or-empty client_framework,
serializing with config_to_json and re-validating the recognized keys (the
loading-path mapping with both key spellings) returns the same record. -/
theorem C5_roundtrip_amended (i : RawInput) (c : ProjectConfig)
    (h : validate_and_build_config i = .ok c)
    (hguard : tS c.client_server = true → tS c.client_framework = true) :
    validate_and_build_config (reparse c) = .ok c := by
  have g := goodConfig_of_ok h
  rw [reparse_eq g.tr_ne]
  exact revalidate_ok g hguard

/-- Witness for the amended C5 at the resolved daily_pstn dial-in record,
which exercises the derived-identifier re-acceptance path. -/
theorem C5_roundtrip_amended_witness :
    validate_and_build_config (reparse pstnInOutput) = .ok pstnInOutput :=
  C5_roundtrip_amended pstnInInput pstnInOutput rfl (by decide)

/-- C3 as stated is false: a successful input carrying the generic
daily_pstn token with dial-in alongside the literal dial-out identifier
resolves, but the re-derivation scan lets the later dial-out entry win, so
the output daily_pstn_mode is not dial-in. -/
theorem C3_counterexample :
    mixedDialInput.daily_pstn_mode = some "dial-in"
    ∧ "daily_pstn" ∈ mixedDialInput.transport.getD []
    ∧ validate_and_build_config mixedDialInput = .ok mixedDialOutput
    ∧ mixedDialOutput.daily_pstn_mode ≠ some "dial-in" :=
  ⟨rfl, by decide, rfl, by decide⟩

/-- C3 amended: on every successful validation the output transports are
the per-token resolution of the input list in place; a generic token with
a supplied dial mode resolves to the base name concatenated with the
dial mode stripped of hyphens; and the output dial mode, re-derived by
scanning the resolved identifiers with the last match winning, equals the
supplied dial mode whenever no other input token shares the base-name
prefix. -/
theorem C3_generic_dial_resolution (i : RawInput) (c : ProjectConfig) (ts : List String) (m : String)
    (h : validate_and_build_config i = .ok c) (hts : i.transport = some ts) :
    c.transports = ts.map (resolveValue i)
    ∧ (i.daily_pstn_mode = some m → "daily_pstn" ∈ ts →
        ((m = "dial-in" ∨ m = "dial-out")
         ∧ resolveValue i "daily_pstn" = "daily_pstn_" ++ stripDashes m
         ∧ ((∀ t ∈ ts, t ≠ "daily_pstn" → pyStarts t "daily_pstn" = false) →
             c.daily_pstn_mode = some m)))
    ∧ (i.twilio_daily_sip_mode = some m → "twilio_daily_sip" ∈ ts →
        ((m = "dial-in" ∨ m = "dial-out")
         ∧ resolveValue i "twilio_daily_sip" = "twilio_daily_sip_" ++ stripDashes m
         ∧ ((∀ t ∈ ts, t ≠ "twilio_daily_sip" → pyStarts t "twilio_daily_sip" = false) →
             c.twilio_daily_sip_mode = some m))) := by
  have hok := h
  rw [validate_ok_iff] at hok
  obtain ⟨hnil, hceq⟩ := hok
  rw [errorsAll_eq_nil_iff] at hnil
  have htr : transportErrors i = [] := hnil.2.2.2.2.1
  have hall : ∀ t ∈ ts, ∃ r, resolveToken i t = .ok r := by
    have hx := transportErrors_nil htr
    rw [hts] at hx
    simpa using hx
  have hmap : c.transports = ts.map (resolveValue i) := by
    rw [hceq]
    show resolvedTransports i = _
    unfold resolvedTransports
    rw [hts]
    simpa using filterMap_okSide_eq_map i ts hall
  refine ⟨hmap, ?_, ?_⟩
  · intro hdm hmem
    obtain ⟨r, hr⟩ := hall _ hmem
    rcases resolveToken_ok_cases hr with ⟨_, hcase⟩ | ⟨habs, _⟩ | ⟨habs, _, _, _⟩
    · have hmode : (m = "dial-in" ∧ r = "daily_pstn_dialin")
          ∨ (m = "dial-out" ∧ r = "daily_pstn_dialout") := by
        rcases hcase with ⟨hmm, hrr⟩ | ⟨hmm, hrr⟩
        · left
          rw [hdm] at hmm
          exact ⟨Option.some.inj hmm, hrr⟩
        · right
          rw [hdm] at hmm
          exact ⟨Option.some.inj hmm, hrr⟩
      have hrv : resolveValue i "daily_pstn" = r := by
        unfold resolveValue
        rw [hr]
      have hrm : r = "daily_pstn_" ++ stripDashes m := by
        rcases hmode with ⟨hm1, hr1⟩ | ⟨hm1, hr1⟩ <;> rw [hm1, hr1] <;> decide
      refine ⟨?_, by rw [hrv, hrm], ?_⟩
      · rcases hmode with ⟨hm1, _⟩ | ⟨hm1, _⟩
        · exact Or.inl hm1
        · exact Or.inr hm1
      · intro huniq
        have hdial : c.daily_pstn_mode = (deriveDialModes c.transports).1 := by
          rw [hceq]
          rfl
        rw [hdial, hmap]
        have hv2 : (r = "daily_pstn_dialin" ∧ m = "dial-in")
            ∨ (r = "daily_pstn_dialout" ∧ m = "dial-out") := by
          rcases hmode with ⟨a, b⟩ | ⟨a, b⟩
          · exact Or.inl ⟨b, a⟩
          · exact Or.inr ⟨b, a⟩
        show ((ts.map (resolveValue i)).foldl dialStep (none, none)).1 = some m
        apply deriveDial_fst_uniform_aux r m hv2
        · intro x hx
          obtain ⟨t0, ht0, hxeq⟩ := List.mem_map.mp hx
          by_cases hgen : t0 = "daily_pstn"
          · left
            rw [← hxeq, hgen, hrv]
          · right
            obtain ⟨r0, hr0⟩ := hall t0 ht0
            have hx0 : x = r0 := by
              rw [← hxeq]
              unfold resolveValue
              rw [hr0]
            rcases resolveToken_ok_cases hr0 with ⟨habs2, _⟩ | ⟨_, hc2⟩ | ⟨_, _, _, hrt⟩
            · exact absurd habs2 hgen
            · rcases hc2 with ⟨_, hrr⟩ | ⟨_, hrr⟩ <;> rw [hx0, hrr] <;> exact ⟨by decide, by decide⟩
            · have hps := huniq t0 ht0 hgen
              constructor
              · intro hxx
                rw [hx0, hrt] at hxx
                rw [hxx] at hps
                exact absurd hps (by decide)
              · intro hxx
                rw [hx0, hrt] at hxx
                rw [hxx] at hps
                exact absurd hps (by decide)
        · rw [← hrv]
          exact List.mem_map_of_mem _ hmem
    · exact absurd habs (by decide)
    · exact absurd rfl habs
  · intro hdm hmem
    obtain ⟨r, hr⟩ := hall _ hmem
    rcases resolveToken_ok_cases hr with ⟨habs, _⟩ | ⟨_, hcase⟩ | ⟨_, habs, _, _⟩
    · exact absurd habs (by decide)
    · have hmode : (m = "dial-in" ∧ r = "twilio_daily_sip_dialin")
          ∨ (m = "dial-out" ∧ r = "twilio_daily_sip_dialout") := by
        rcases hcase with ⟨hmm, hrr⟩ | ⟨hmm, hrr⟩
        · left
          rw [hdm] at hmm
          exact ⟨Option.some.inj hmm, hrr⟩
        · right
          rw [hdm] at hmm
          exact ⟨Option.some.inj hmm, hrr⟩
      have hrv : resolveValue i "twilio_daily_sip" = r := by
        unfold resolveValue
        rw [hr]
      have hrm : r = "twilio_daily_sip_" ++ stripDashes m := by
        rcases hmode with ⟨hm1, hr1⟩ | ⟨hm1, hr1⟩ <;> rw [hm1, hr1] <;> decide
      refine ⟨?_, by rw [hrv, hrm], ?_⟩
      · rcases hmode with ⟨hm1, _⟩ | ⟨hm1, _⟩
        · exact Or.inl hm1
        · exact Or.inr hm1
      · intro huniq
        have hdial : c.twilio_daily_sip_mode = (deriveDialModes c.transports).2 := by
          rw [hceq]
          rfl
        rw [hdial, hmap]
        have hv2 : (r = "twilio_daily_sip_dialin" ∧ m = "dial-in")
            ∨ (r = "twilio_daily_sip_dialout" ∧ m = "dial-out") := by
          rcases hmode with ⟨a, b⟩ | ⟨a, b⟩
          · exact Or.inl ⟨b, a⟩
          · exact Or.inr ⟨b, a⟩
        show ((ts.map (resolveValue i)).foldl dialStep (none, none)).2 = some m
        apply deriveDial_snd_uniform_aux r m hv2
        · intro x hx
          obtain ⟨t0, ht0, hxeq⟩ := List.mem_map.mp hx
          by_cases hgen : t0 = "twilio_daily_sip"
          · left
            rw [← hxeq, hgen, hrv]
          · right
            obtain ⟨r0, hr0⟩ := hall t0 ht0
            have hx0 : x = r0 := by
              rw [← hxeq]
              unfold resolveValue
              rw [hr0]
            rcases resolveToken_ok_cases hr0 with ⟨_, hc2⟩ | ⟨habs2, _⟩ | ⟨_, _, _, hrt⟩
            · rcases hc2 with ⟨_, hrr⟩ | ⟨_, hrr⟩ <;> rw [hx0, hrr] <;> exact ⟨by decide, by decide⟩
            · exact absurd habs2 hgen
            · have hps := huniq t0 ht0 hgen
              constructor
              · intro hxx
                rw [hx0, hrt] at hxx
                rw [hxx] at hps
                exact absurd hps (by decide)
              · intro hxx
                rw [hx0, hrt] at hxx
                rw [hxx] at hps
                exact absurd hps (by decide)
        · rw [← hrv]
          exact List.mem_map_of_mem _ hmem
    · exact absurd rfl habs

/-- Witness for the amended C3 at the plain dial-out request. -/
theorem C3_generic_dial_resolution_witness :
    pstnOutOutput.transports = ["daily_pstn"].map (resolveValue pstnOutInput)
    ∧ pstnOutOutput.daily_pstn_mode = some "dial-out" := by
  have hx := C3_generic_dial_resolution pstnOutInput pstnOutOutput ["daily_pstn"] "dial-out" rfl rfl
  exact ⟨hx.1, (hx.2.1 rfl (by decide)).2.2 (by decide)⟩
